import Mathlib

/-!
# Verification of the Polymarket account-analyzer core

Shallow embedding of the deterministic core of the
`polymarket-account-analyzer` repository: the six statistical analyzers
(`src/skills/*.py`), the rule-based hint generator and the hard-override
decision engine (`src/eval/skilled_analyzer.py`).

Conventions of the embedding:
* Python floats are modelled as `ℚ`; `float('inf')` (reachable only for
  the flow analyzer's profit factor) is modelled by `Option ℚ` with
  `none` standing for `+∞`.  Decimal threshold literals are read as the
  exact decimal rationals they denote.
* Python `dict`s are insertion-ordered association lists; `Counter`s are
  insertion-ordered count lists, `most_common` is a stable sort by
  descending count (exactly Python's behaviour).
* Python's stable `sorted` is a stable insertion sort (the result of a
  stable sort by a key is unique, so any stable implementation agrees).
* Human-readable signal / hint / evidence strings are modelled as tagged
  values that carry the numeric payloads interpolated into the original
  f-strings; the surrounding prose is presentation only.
* In `ℚ`, division by zero yields `0` whereas Python would raise
  `ZeroDivisionError`; the analyzers never divide by zero on the inputs
  they produce, and every guard of the source is translated verbatim.
-/

namespace PMA

/-- ASCII lower-casing of one character, mirroring Python `str.lower`
on the ASCII market titles and labels this program manipulates. -/
def charLower (c : Char) : Char :=
  if 'A' ≤ c ∧ c ≤ 'Z' then Char.ofNat (c.toNat + 32) else c

/-- Python `s.lower()` (ASCII fragment). -/
def strLower (s : String) : String := ⟨s.data.map charLower⟩

/-- `segStarts hay needle` : `needle` is a prefix of `hay`. -/
def segStarts [DecidableEq α] : List α → List α → Bool
  | _, [] => true
  | [], _ :: _ => false
  | a :: as, b :: bs => decide (a = b) && segStarts as bs

/-- `segIn needle hay` : `needle` occurs as a contiguous segment of `hay`
(Python's `needle in hay` on strings, lifted to lists). -/
def segIn [DecidableEq α] (needle : List α) : List α → Bool
  | [] => needle.isEmpty
  | a :: t => segStarts (a :: t) needle || segIn needle t

/-- Python `needle in hay` for strings. -/
def strIn (needle hay : String) : Bool := segIn needle.data hay.data

/-- Python `str(l)` for a list of strings, e.g. `"['a', 'b']"`.
(The source only ever renders the fixed category names, which contain
no quotes, so no escaping is needed.) -/
def pyStrOfList (l : List String) : String :=
  "[" ++ String.intercalate ", " (l.map (fun s => "'" ++ s ++ "'")) ++ "]"

/-- Insert `a` into an ascending-by-key list, before the first element
whose key is not smaller — the stable insertion step. -/
def insertByKey [LinearOrder β] (key : α → β) (a : α) : List α → List α
  | [] => [a]
  | b :: bs => if key b < key a then b :: insertByKey key a bs else a :: b :: bs

/-- Stable ascending sort by key (agrees with Python's stable `sorted`). -/
def sortByKey [LinearOrder β] (key : α → β) : List α → List α
  | [] => []
  | x :: xs => insertByKey key x (sortByKey key xs)

/-- Stable descending insertion step. -/
def insertByKeyD [LinearOrder β] (key : α → β) (a : α) : List α → List α
  | [] => [a]
  | b :: bs => if key a < key b then b :: insertByKeyD key a bs else a :: b :: bs

/-- Stable descending sort by key (Python `sorted(..., reverse=True)` /
`sort(key=lambda x: -x[1])`). -/
def sortByKeyD [LinearOrder β] (key : α → β) : List α → List α
  | [] => []
  | x :: xs => insertByKeyD key x (sortByKeyD key xs)

/-- First value bound to `k` in an insertion-ordered association list. -/
def dictFind [DecidableEq K] (d : List (K × V)) (k : K) : Option V :=
  (d.find? (fun p => decide (p.1 = k))).map Prod.snd

/-- Python `d[k] = f(d.get(k))`: update in place if the key is present,
else append — insertion order is preserved, keys stay unique. -/
def dictUpd [DecidableEq K] (k : K) (f : Option V → V) : List (K × V) → List (K × V)
  | [] => [(k, f none)]
  | (k', v) :: rest =>
      if k = k' then (k', f (some v)) :: rest else (k', v) :: dictUpd k f rest

/-- Python `d[k] = d.get(k, 0) + x` for numeric dictionaries. -/
def dictAdd [DecidableEq K] [Add V] [Zero V] (d : List (K × V)) (k : K) (x : V) :
    List (K × V) :=
  dictUpd k (fun o => o.getD 0 + x) d

/-- Python `defaultdict(list)`-style grouping: append `v` under `k`,
first-seen key order. -/
def groupAdd [DecidableEq K] (k : K) (v : V) : List (K × List V) → List (K × List V)
  | [] => [(k, [v])]
  | (k', vs) :: rest =>
      if k = k' then (k', vs ++ [v]) :: rest else (k', vs) :: groupAdd k v rest

/-- Remove duplicates keeping first occurrences (used only where the
source uses a `set` for membership or cardinality, which are
order-independent). -/
def dedupAux [DecidableEq α] (seen : List α) : List α → List α
  | [] => []
  | a :: as => if seen.contains a then dedupAux seen as else a :: dedupAux (a :: seen) as

/-- Deduplicate a list keeping first occurrences. -/
def dedupKeep [DecidableEq α] : List α → List α := dedupAux []

/-- `Counter.most_common()`: stable sort by descending count. -/
def mostCommon [DecidableEq K] (d : List (K × ℕ)) : List (K × ℕ) :=
  sortByKeyD (fun p => p.2) d

/-- Python `max` over a nonempty list of rationals (0 on `[]`, unreached). -/
def listMaxQ : List ℚ → ℚ
  | [] => 0
  | x :: xs => xs.foldl max x

/-- Python `min` over a nonempty list of rationals (0 on `[]`, unreached). -/
def listMinQ : List ℚ → ℚ
  | [] => 0
  | x :: xs => xs.foldl min x

/-- Comparison `x > c` where `x` is a possibly-infinite float
(`none` = `+∞`, which exceeds every threshold). -/
def pfGt (x : Option ℚ) (c : ℚ) : Bool :=
  match x with
  | none => true
  | some q => decide (c < q)

/-- Comparison `x < c` where `x` is a possibly-infinite float. -/
def pfLt (x : Option ℚ) (c : ℚ) : Bool :=
  match x with
  | none => false
  | some q => decide (q < c)

/-- Gregorian `(year, month)` from a day count since 1970-01-01
(Howard Hinnant's `civil_from_days`, restricted to non-negative days). -/
def civilYM (z0 : ℕ) : ℕ × ℕ :=
  let z := z0 + 719468
  let era := z / 146097
  let doe := z % 146097
  let yoe := (doe - doe / 1460 + doe / 36524 - doe / 146096) / 365
  let y := yoe + era * 400
  let doy := doe - (365 * yoe + yoe / 4 - yoe / 100)
  let mp := (5 * doy + 2) / 153
  let m := if mp < 10 then mp + 3 else mp - 9
  (if m ≤ 2 then y + 1 else y, m)

/-- Python `datetime.fromtimestamp(ts, tz=utc).strftime("%Y-%m")`,
modelled as the `(year, month)` pair (only called with `ts > 0`;
sorting pairs chronologically agrees with Python's string sort). -/
def monthOfTs (ts : ℤ) : ℕ × ℕ := civilYM (ts.toNat / 86400)

/-- Chronological index of a `(year, month)` key. -/
def monthIdx (p : ℕ × ℕ) : ℤ := (p.1 : ℤ) * 12 + (p.2 : ℤ)

/-- One trade/holding record (`Position` of §3 of the spec; the dicts fed
to the skills carry exactly these eight keys). -/
structure Position where
  tb : ℚ
  ap : ℚ
  cp : ℚ
  pnl : ℚ
  ts : ℤ
  t : String
  cid : String
  o : String
deriving DecidableEq

/-- Qualitative signals of `analyze_flow`, tagged with the numbers the
source interpolates into its f-strings. -/
inductive FlowSignal
  | highProfitFactor (pf : Option ℚ)
  | lowProfitFactor (pf : Option ℚ)
  | highWinRate (wr : ℚ)
  | lowWinRate (wr : ℚ)
  | highRR (rr : ℚ)
  | accumulator (n : ℕ)
  | largeDrawdown (x : ℚ)
deriving DecidableEq

/-- Result record of `src/skills/flow_analyzer.py::FlowAnalysis`
(field defaults as in the dataclass; `risk_reward_rat` is the source's
`risk_reward_ratio`). -/
structure FlowAnalysis where
  total_positions : ℕ := 0
  total_volume_bought : ℚ := 0
  total_pnl : ℚ := 0
  win_count : ℕ := 0
  loss_count : ℕ := 0
  win_rate : ℚ := 0
  avg_win : ℚ := 0
  avg_loss : ℚ := 0
  profit_factor : Option ℚ := some 0
  expectancy : ℚ := 0
  multi_entry_markets : ℕ := 0
  avg_entries_per_market : ℚ := 0
  monthly_pnl : List ((ℕ × ℕ) × ℚ) := []
  monthly_volume : List ((ℕ × ℕ) × ℚ) := []
  trend_direction : String := ""
  max_single_loss : ℚ := 0
  max_single_win : ℚ := 0
  risk_reward_rat : ℚ := 0
  signals : List FlowSignal := []
deriving DecidableEq

/-- `src/skills/flow_analyzer.py::analyze_flow`. -/
def analyze_flow (positions : List Position) : FlowAnalysis :=
  if positions = [] then { total_positions := positions.length } else
  let total_volume_bought := (positions.map (·.tb)).sum
  let pnls := positions.map (·.pnl)
  let total_pnl := pnls.sum
  let wins := positions.filter (fun p => decide (0 < p.pnl))
  let losses := positions.filter (fun p => decide (p.pnl ≤ 0))
  let win_rate : ℚ := (wins.length : ℚ) / (positions.length : ℚ)
  let win_pnls := wins.map (·.pnl)
  let avg_win := if wins = [] then 0 else win_pnls.sum / (win_pnls.length : ℚ)
  let max_single_win := if wins = [] then 0 else listMaxQ win_pnls
  let loss_pnls := losses.map (·.pnl)
  let avg_loss := if losses = [] then 0 else loss_pnls.sum / (loss_pnls.length : ℚ)
  let max_single_loss := if losses = [] then 0 else listMinQ loss_pnls
  let gross_profit := if wins = [] then 0 else (wins.map (·.pnl)).sum
  let gross_loss := if losses = [] then 1 else |(losses.map (·.pnl)).sum|
  let profit_factor : Option ℚ :=
    if 0 < gross_loss then some (gross_profit / gross_loss) else none
  let expectancy := total_pnl / (positions.length : ℚ)
  let risk_reward_rat := if avg_loss ≠ 0 then avg_win / |avg_loss| else 0
  let market_entries : List (String × ℕ) :=
    positions.foldl (fun d p => if p.cid = "" then d else dictAdd d p.cid 1) []
  let multi_entry_markets := (market_entries.filter (fun kv => decide (1 < kv.2))).length
  let avg_entries_per_market : ℚ :=
    if market_entries = [] then 0
    else (positions.length : ℚ) / (market_entries.length : ℚ)
  let monthly_pnl :=
    positions.foldl
      (fun d p => if 0 < p.ts then dictAdd d (monthOfTs p.ts) p.pnl else d) []
  let monthly_volume :=
    positions.foldl
      (fun d p => if 0 < p.ts then dictAdd d (monthOfTs p.ts) p.tb else d) []
  let trend_direction :=
    if 3 ≤ monthly_pnl.length then
      let months := sortByKey monthIdx (monthly_pnl.map Prod.fst)
      let recent := (months.drop (months.length - 3)).map
        (fun m => (dictFind monthly_pnl m).getD 0)
      let older :=
        if 6 ≤ months.length then
          (months.take 3).map (fun m => (dictFind monthly_pnl m).getD 0)
        else [(dictFind monthly_pnl ((months.head?).getD (0, 0))).getD 0]
      let avg_recent := recent.sum / (recent.length : ℚ)
      let avg_older := older.sum / (older.length : ℚ)
      if avg_older * (3/2) < avg_recent then "improving"
      else if avg_recent < avg_older * (1/2) then "declining"
      else "stable"
    else "insufficient_data"
  let sigs1 : List FlowSignal :=
    if pfGt profit_factor 2 then [.highProfitFactor profit_factor]
    else if pfLt profit_factor (4/5) then [.lowProfitFactor profit_factor]
    else []
  let sigs2 : List FlowSignal :=
    if (13/20 : ℚ) < win_rate then [.highWinRate win_rate]
    else if win_rate < (7/20 : ℚ) then [.lowWinRate win_rate]
    else []
  let sigs3 : List FlowSignal :=
    if (3 : ℚ) < risk_reward_rat then [.highRR risk_reward_rat] else []
  let sigs4 : List FlowSignal :=
    if (market_entries.length : ℚ) * (3/10) < (multi_entry_markets : ℚ) ∧
        5 < market_entries.length then
      [.accumulator multi_entry_markets]
    else []
  let sigs5 : List FlowSignal :=
    if max_single_loss ≠ 0 ∧ total_volume_bought * (1/10) < |max_single_loss| then
      [.largeDrawdown max_single_loss]
    else []
  { total_positions := positions.length
    total_volume_bought := total_volume_bought
    total_pnl := total_pnl
    win_count := wins.length
    loss_count := losses.length
    win_rate := win_rate
    avg_win := avg_win
    avg_loss := avg_loss
    profit_factor := profit_factor
    expectancy := expectancy
    multi_entry_markets := multi_entry_markets
    avg_entries_per_market := avg_entries_per_market
    monthly_pnl := monthly_pnl
    monthly_volume := monthly_volume
    trend_direction := trend_direction
    max_single_loss := max_single_loss
    max_single_win := max_single_win
    risk_reward_rat := risk_reward_rat
    signals := sigs1 ++ sigs2 ++ sigs3 ++ sigs4 ++ sigs5 }

/-- Qualitative signals of `analyze_patterns`. -/
inductive PatternSignal
  | longWinStreaks (n : ℕ)
  | longLossStreaks (n : ℕ)
  | steadyGrinder (r2 : ℚ)
  | volatileReturns (r2 : ℚ)
  | severeDrawdown (pct : ℚ)
  | martingaleTendency (r : ℚ)
  | riskReducer (r : ℚ)
  | improvingEdge
  | decliningEdge
deriving DecidableEq

/-- Result record of `src/skills/pattern_analyzer.py::PatternAnalysis`
(`size_after_loss_rat` / `size_after_win_rat` are the source's
`size_after_loss_ratio` / `size_after_win_ratio`). -/
structure PatternAnalysis where
  total_positions : ℕ := 0
  max_win_streak : ℕ := 0
  max_loss_streak : ℕ := 0
  avg_win_streak : ℚ := 0
  avg_loss_streak : ℚ := 0
  current_streak : ℤ := 0
  max_drawdown : ℚ := 0
  max_drawdown_pct : ℚ := 0
  drawdown_duration_positions : ℕ := 0
  recoveries_from_loss : ℕ := 0
  avg_recovery_length : ℚ := 0
  size_after_loss_rat : ℚ := 0
  size_after_win_rat : ℚ := 0
  first_half_winrate : ℚ := 0
  second_half_winrate : ℚ := 0
  edge_trend : String := ""
  pnl_curve_r2 : ℚ := 0
  signals : List PatternSignal := []
deriving DecidableEq

/-- `src/skills/pattern_analyzer.py::_compute_streaks`: returns
`(max_win, max_loss, avg_win, avg_loss, current_streak)`. -/
def computeStreaks (results : List Bool) : ℕ × ℕ × ℚ × ℚ × ℤ :=
  match results with
  | [] => (0, 0, 0, 0, 0)
  | r0 :: _ =>
    let st := results.foldl
      (fun (s : List ℕ × List ℕ × Bool × ℕ) r =>
        let (ws, ls, is_win, len) := s
        if r = is_win then (ws, ls, is_win, len + 1)
        else if is_win then (ws ++ [len], ls, r, 1)
        else (ws, ls ++ [len], r, 1))
      ([], [], r0, 0)
    let (ws0, ls0, is_win, len) := st
    let ws := if is_win then ws0 ++ [len] else ws0
    let ls := if is_win then ls0 else ls0 ++ [len]
    let current : ℤ := if is_win then (len : ℤ) else -(len : ℤ)
    let max_w := ws.foldl max 0
    let max_l := ls.foldl max 0
    let avg_w : ℚ := if ws = [] then 0 else ((ws.map (Nat.cast)).sum : ℚ) / (ws.length : ℚ)
    let avg_l : ℚ := if ls = [] then 0 else ((ls.map (Nat.cast)).sum : ℚ) / (ls.length : ℚ)
    (max_w, max_l, avg_w, avg_l, current)

/-- State of the running peak/trough scan over cumulative PnL in
`analyze_patterns` (its local variables `peak`, `max_dd`, `max_dd_peak`,
`dd_start`, `max_dd_start`, `max_dd_end`). -/
structure DDState where
  peak : ℚ
  max_dd : ℚ
  max_dd_peak : ℚ
  dd_start : ℕ
  max_dd_start : ℕ
  max_dd_end : ℕ
deriving DecidableEq

/-- One iteration of the drawdown scan of `analyze_patterns`. -/
def ddStep (st : DDState) (iv : ℕ × ℚ) : DDState :=
  let st1 := if st.peak < iv.2 then { st with peak := iv.2, dd_start := iv.1 } else st
  let dd := st1.peak - iv.2
  if st1.max_dd < dd then
    { st1 with max_dd := dd, max_dd_peak := st1.peak,
               max_dd_start := st1.dd_start, max_dd_end := iv.1 }
  else st1

/-- The drawdown scan of `analyze_patterns` over the cumulative-PnL list. -/
def ddScan (cumulative : List ℚ) : DDState :=
  let peak0 := (cumulative.head?).getD 0
  cumulative.enum.foldl ddStep
    { peak := peak0, max_dd := 0, max_dd_peak := peak0,
      dd_start := 0, max_dd_start := 0, max_dd_end := 0 }

/-- The recovery loop of `analyze_patterns`: positions scanned from the
max-drawdown trough until cumulative PnL re-reaches the prior peak
(each iteration counts, the loop breaks once `peak ≤ value`). -/
def recoveryCount (peak : ℚ) : List ℚ → ℕ
  | [] => 0
  | v :: vs => if peak ≤ v then 1 else 1 + recoveryCount peak vs

/-- The loss-streak recovery loop of `analyze_patterns`, returning
`recoveries_from_loss` (state: `loss_streak`, `in_recovery`,
`recovery_len`, counter; `recovery_lengths` is never appended to in the
source, so `avg_recovery_length` stays 0). -/
def lossRecoveries (results : List Bool) : ℕ :=
  (results.foldl
    (fun (s : ℕ × Bool × ℕ × ℕ) r =>
      let (loss_streak, in_recovery, recovery_len, cnt) := s
      if r = false then
        (loss_streak + 1, false, recovery_len, cnt)
      else
        let (in_recovery', recovery_len', cnt') :=
          if 3 ≤ loss_streak then (true, 0, cnt + 1)
          else (in_recovery, recovery_len, cnt)
        let recovery_len'' := if in_recovery' then recovery_len' + 1 else recovery_len'
        (0, in_recovery', recovery_len'', cnt'))
    (0, false, 0, 0)).2.2.2

/-- `src/skills/pattern_analyzer.py::analyze_patterns`.  The PnL-curve
`R²` is written as `ss_xy² / (ss_xx · ss_yy)`, the exact value of the
source's `(ss_xy / (ss_xx * ss_yy) ** 0.5) ** 2`. -/
def analyze_patterns (positions : List Position) : PatternAnalysis :=
  if positions.length < 2 then { total_positions := positions.length } else
  let sorted_pos := sortByKey (fun p => p.ts) positions
  let results := sorted_pos.map (fun p => decide (0 < p.pnl))
  let streaks := computeStreaks results
  let max_w := streaks.1
  let max_l := streaks.2.1
  let avg_w := streaks.2.2.1
  let avg_l := streaks.2.2.2.1
  let current := streaks.2.2.2.2
  let cumulative := ((sorted_pos.map (·.pnl)).scanl (· + ·) 0).tail
  let dd := ddScan cumulative
  let max_drawdown_pct := if 0 < dd.max_dd_peak then dd.max_dd / dd.max_dd_peak else 0
  let drawdown_duration :=
    if 0 < dd.max_dd then recoveryCount dd.max_dd_peak (cumulative.drop dd.max_dd_end)
    else 0
  let sizes := sorted_pos.map (·.tb)
  let avg_size := if sizes = [] then 1 else sizes.sum / (sizes.length : ℚ)
  let pairs := sorted_pos.zip sorted_pos.tail
  let after_loss_sizes := (pairs.filter (fun pr => decide (pr.1.pnl ≤ 0))).map (fun pr => pr.2.tb)
  let after_win_sizes := (pairs.filter (fun pr => decide (0 < pr.1.pnl))).map (fun pr => pr.2.tb)
  let size_after_loss_rat :=
    if after_loss_sizes ≠ [] ∧ 0 < avg_size then
      (after_loss_sizes.sum / (after_loss_sizes.length : ℚ)) / avg_size
    else 0
  let size_after_win_rat :=
    if after_win_sizes ≠ [] ∧ 0 < avg_size then
      (after_win_sizes.sum / (after_win_sizes.length : ℚ)) / avg_size
    else 0
  let mid := results.length / 2
  let first_half := results.take mid
  let second_half := results.drop mid
  let first_half_winrate : ℚ :=
    if first_half = [] then 0
    else ((first_half.filter id).length : ℚ) / (first_half.length : ℚ)
  let second_half_winrate : ℚ :=
    if second_half = [] then 0
    else ((second_half.filter id).length : ℚ) / (second_half.length : ℚ)
  let edge_trend :=
    if first_half_winrate + (1/20) < second_half_winrate then "improving"
    else if second_half_winrate < first_half_winrate - (1/20) then "declining"
    else "stable"
  let n := cumulative.length
  let pnl_curve_r2 : ℚ :=
    if 10 ≤ n then
      let x_mean : ℚ := ((n : ℚ) - 1) / 2
      let y_mean : ℚ := cumulative.sum / (n : ℚ)
      let ss_xy := (cumulative.enum.map (fun iy => ((iy.1 : ℚ) - x_mean) * (iy.2 - y_mean))).sum
      let ss_xx := ((List.range n).map (fun i => ((i : ℚ) - x_mean) ^ 2)).sum
      let ss_yy := (cumulative.map (fun y => (y - y_mean) ^ 2)).sum
      if 0 < ss_xx ∧ 0 < ss_yy then ss_xy ^ 2 / (ss_xx * ss_yy) else 0
    else 0
  let sigs1 : List PatternSignal :=
    if 10 ≤ max_w then [.longWinStreaks max_w] else []
  let sigs2 : List PatternSignal :=
    if 10 ≤ max_l then [.longLossStreaks max_l] else []
  let sigs3 : List PatternSignal :=
    if (9/10 : ℚ) < pnl_curve_r2 then [.steadyGrinder pnl_curve_r2]
    else if pnl_curve_r2 < (3/10 : ℚ) ∧ 20 ≤ n then [.volatileReturns pnl_curve_r2]
    else []
  let sigs4 : List PatternSignal :=
    if (1/2 : ℚ) < max_drawdown_pct then [.severeDrawdown max_drawdown_pct] else []
  let sigs5 : List PatternSignal :=
    if (13/10 : ℚ) < size_after_loss_rat then [.martingaleTendency size_after_loss_rat]
    else if size_after_loss_rat < (7/10 : ℚ) ∧ 0 < size_after_loss_rat then
      [.riskReducer size_after_loss_rat]
    else []
  let sigs6 : List PatternSignal :=
    if edge_trend = "improving" then [.improvingEdge]
    else if edge_trend = "declining" then [.decliningEdge]
    else []
  { total_positions := positions.length
    max_win_streak := max_w
    max_loss_streak := max_l
    avg_win_streak := avg_w
    avg_loss_streak := avg_l
    current_streak := current
    max_drawdown := dd.max_dd
    max_drawdown_pct := max_drawdown_pct
    drawdown_duration_positions := drawdown_duration
    recoveries_from_loss := lossRecoveries results
    avg_recovery_length := 0
    size_after_loss_rat := size_after_loss_rat
    size_after_win_rat := size_after_win_rat
    first_half_winrate := first_half_winrate
    second_half_winrate := second_half_winrate
    edge_trend := edge_trend
    pnl_curve_r2 := pnl_curve_r2
    signals := sigs1 ++ sigs2 ++ sigs3 ++ sigs4 ++ sigs5 ++ sigs6 }

/-- Qualitative signals of `analyze_sizing`. -/
inductive SizingSignal
  | consistentSizing
  | highlyVariableSizing
  | whaleSizing (count : ℕ) (pct : ℚ)
  | concentrated (pct : ℚ)
  | largerOnWins
  | largerOnLosses
  | lowOddsBuyer (pct : ℚ)
  | highOddsBuyer (pct : ℚ)
  | midOddsFocus (pct : ℚ)
  | veryLargeAvg (avg : ℚ)
deriving DecidableEq

/-- Result record of `src/skills/sizing_analyzer.py::SizingAnalysis`
(`win_loss_size_rat` is the source's `win_loss_size_ratio`). -/
structure SizingAnalysis where
  total_positions : ℕ := 0
  total_volume : ℚ := 0
  avg_position_size : ℚ := 0
  median_position_size : ℚ := 0
  std_position_size : ℚ := 0
  min_position_size : ℚ := 0
  max_position_size : ℚ := 0
  micro_count : ℕ := 0
  small_count : ℕ := 0
  medium_count : ℕ := 0
  large_count : ℕ := 0
  whale_count : ℕ := 0
  coefficient_of_variation : ℚ := 0
  size_concentration : ℚ := 0
  avg_win_size : ℚ := 0
  avg_loss_size : ℚ := 0
  win_loss_size_rat : ℚ := 0
  avg_entry_price : ℚ := 0
  low_odds_pct : ℚ := 0
  mid_odds_pct : ℚ := 0
  high_odds_pct : ℚ := 0
  signals : List SizingSignal := []
deriving DecidableEq

/-- Python `statistics.median` on a nonempty list. -/
def medianQ (l : List ℚ) : ℚ :=
  let s := sortByKey id l
  let n := s.length
  if n % 2 = 1 then (s.drop (n / 2)).headD 0
  else ((s.drop (n / 2 - 1)).headD 0 + (s.drop (n / 2)).headD 0) / 2

/-- `src/skills/sizing_analyzer.py::analyze_sizing`.  The only
non-rational operation of the source, `statistics.stdev`'s square root,
is supplied as the function argument `sqrtQ` (everything downstream of
it is translated verbatim). -/
def analyze_sizing (sqrtQ : ℚ → ℚ) (positions : List Position) : SizingAnalysis :=
  if positions = [] then { total_positions := positions.length } else
  let sizes := (positions.filter (fun p => decide (0 < p.tb))).map (·.tb)
  if sizes = [] then { total_positions := positions.length } else
  let total_volume := sizes.sum
  let avg_position_size := sizes.sum / (sizes.length : ℚ)
  let median_position_size := medianQ sizes
  let min_position_size := listMinQ sizes
  let max_position_size := listMaxQ sizes
  let std_position_size :=
    if 1 < sizes.length then
      sqrtQ ((sizes.map (fun x => (x - avg_position_size) ^ 2)).sum / ((sizes.length : ℚ) - 1))
    else 0
  let coefficient_of_variation :=
    if 0 < avg_position_size then std_position_size / avg_position_size else 0
  let micro_count := (sizes.filter (fun s => decide (s < 100))).length
  let small_count := (sizes.filter (fun s => decide (100 ≤ s ∧ s < 1000))).length
  let medium_count := (sizes.filter (fun s => decide (1000 ≤ s ∧ s < 10000))).length
  let large_count := (sizes.filter (fun s => decide (10000 ≤ s ∧ s < 100000))).length
  let whale_count := (sizes.filter (fun s => decide (100000 ≤ s))).length
  let sorted_sizes := sortByKeyD id sizes
  let top_n := max 1 (sorted_sizes.length / 10)
  let size_concentration := (sorted_sizes.take top_n).sum / total_volume
  let wins := positions.filter (fun p => decide (0 < p.pnl ∧ 0 < p.tb))
  let losses := positions.filter (fun p => decide (p.pnl ≤ 0 ∧ 0 < p.tb))
  let avg_win_size := if wins = [] then 0 else (wins.map (·.tb)).sum / (wins.length : ℚ)
  let avg_loss_size := if losses = [] then 0 else (losses.map (·.tb)).sum / (losses.length : ℚ)
  let win_loss_size_rat := if 0 < avg_loss_size then avg_win_size / avg_loss_size else 0
  let entries := (positions.filter (fun p => decide (0 < p.ap ∧ p.ap ≤ 1))).map (·.ap)
  let avg_entry_price := if entries = [] then 0 else entries.sum / (entries.length : ℚ)
  let low_odds_pct :=
    if entries = [] then 0
    else ((entries.filter (fun e => decide (e < 3/10))).length : ℚ) / (entries.length : ℚ)
  let mid_odds_pct :=
    if entries = [] then 0
    else ((entries.filter (fun e => decide (3/10 ≤ e ∧ e ≤ 7/10))).length : ℚ) / (entries.length : ℚ)
  let high_odds_pct :=
    if entries = [] then 0
    else ((entries.filter (fun e => decide (7/10 < e))).length : ℚ) / (entries.length : ℚ)
  let sigs1 : List SizingSignal :=
    if coefficient_of_variation < (1/2 : ℚ) then [.consistentSizing]
    else if (2 : ℚ) < coefficient_of_variation then [.highlyVariableSizing]
    else []
  let sigs2 : List SizingSignal :=
    if 0 < whale_count ∧ (1/10 : ℚ) < (whale_count : ℚ) / (sizes.length : ℚ) then
      [.whaleSizing whale_count ((whale_count : ℚ) / (sizes.length : ℚ))]
    else []
  let sigs3 : List SizingSignal :=
    if (1/2 : ℚ) < size_concentration then [.concentrated size_concentration] else []
  let sigs4 : List SizingSignal :=
    if (3/2 : ℚ) < win_loss_size_rat then [.largerOnWins]
    else if win_loss_size_rat < (7/10 : ℚ) ∧ 0 < win_loss_size_rat then [.largerOnLosses]
    else []
  let sigs5 : List SizingSignal :=
    if (1/2 : ℚ) < low_odds_pct then [.lowOddsBuyer low_odds_pct]
    else if (1/2 : ℚ) < high_odds_pct then [.highOddsBuyer high_odds_pct]
    else if (3/5 : ℚ) < mid_odds_pct then [.midOddsFocus mid_odds_pct]
    else []
  let sigs6 : List SizingSignal :=
    if (100000 : ℚ) < avg_position_size then [.veryLargeAvg avg_position_size] else []
  { total_positions := positions.length
    total_volume := total_volume
    avg_position_size := avg_position_size
    median_position_size := median_position_size
    std_position_size := std_position_size
    min_position_size := min_position_size
    max_position_size := max_position_size
    micro_count := micro_count
    small_count := small_count
    medium_count := medium_count
    large_count := large_count
    whale_count := whale_count
    coefficient_of_variation := coefficient_of_variation
    size_concentration := size_concentration
    avg_win_size := avg_win_size
    avg_loss_size := avg_loss_size
    win_loss_size_rat := win_loss_size_rat
    avg_entry_price := avg_entry_price
    low_odds_pct := low_odds_pct
    mid_odds_pct := mid_odds_pct
    high_odds_pct := high_odds_pct
    signals := sigs1 ++ sigs2 ++ sigs3 ++ sigs4 ++ sigs5 ++ sigs6 }

/-- Qualitative signals of `analyze_markets`. -/
inductive MarketSignal
  | specialist (conc : ℚ) (cat : String)
  | diversified (ncats : ℕ)
  | marketConcentrated (hhi : ℚ)
  | highlyDiversified
  | noBias (pct : ℚ)
  | yesBias (pct : ℚ)
  | repeatMarkets (perMarket : ℚ)
deriving DecidableEq

/-- Result record of `src/skills/market_analyzer.py::MarketAnalysis`. -/
structure MarketAnalysis where
  total_positions : ℕ := 0
  unique_markets : ℕ := 0
  unique_titles : ℕ := 0
  category_counts : List (String × ℕ) := []
  category_pnl : List (String × ℚ) := []
  category_volume : List (String × ℚ) := []
  dominant_category : String := ""
  category_concentration : ℚ := 0
  herfindahl_index : ℚ := 0
  markets_per_category : ℚ := 0
  top_markets : List (String × ℚ × ℚ) := []
  yes_pct : ℚ := 0
  no_pct : ℚ := 0
  signals : List MarketSignal := []
deriving DecidableEq

/-- `src/skills/market_analyzer.py::analyze_markets`.  The regex-driven
keyword classifier `_categorize_market` is supplied as the function
argument `categorize` (the analyzer itself is translated verbatim; the
position dicts always carry every key, so the `.get` defaults of the
source are never taken). -/
def analyze_markets (categorize : String → String) (positions : List Position) :
    MarketAnalysis :=
  if positions = [] then { total_positions := positions.length } else
  let cids := dedupKeep ((positions.filter (fun p => p.cid ≠ "")).map (·.cid))
  let titles := dedupKeep ((positions.filter (fun p => p.t ≠ "")).map (·.t))
  let cat_counts : List (String × ℕ) :=
    positions.foldl (fun d p => dictAdd d (categorize p.t) 1) []
  let cat_pnl : List (String × ℚ) :=
    positions.foldl (fun d p => dictAdd d (categorize p.t) p.pnl) []
  let cat_vol : List (String × ℚ) :=
    positions.foldl (fun d p => dictAdd d (categorize p.t) p.tb) []
  let category_counts := mostCommon cat_counts
  let (dominant_category, category_concentration) :=
    match mostCommon cat_counts with
    | [] => ("", (0 : ℚ))
    | (top_cat, top_count) :: _ => (top_cat, (top_count : ℚ) / (positions.length : ℚ))
  let market_volumes : List (String × ℚ) :=
    positions.foldl (fun d p => dictAdd d p.cid p.tb) []
  let tv0 := (market_volumes.map (·.2)).sum
  let total_vol := if tv0 = 0 then 1 else tv0
  let herfindahl_index := (market_volumes.map (fun kv => (kv.2 / total_vol) ^ 2)).sum
  let market_pnl : List (String × ℚ) :=
    positions.foldl (fun d p => dictAdd d p.cid p.pnl) []
  let market_titles : List (String × String) :=
    positions.foldl (fun d p => dictUpd p.cid (fun _ => p.t) d) []
  let sorted_markets := sortByKeyD (fun kv => kv.2) market_volumes
  let top_markets := (sorted_markets.take 10).map
    (fun kv => ((dictFind market_titles kv.1).getD "?", kv.2, (dictFind market_pnl kv.1).getD 0))
  let yes_count := (positions.filter (fun p => strLower p.o = "yes")).length
  let no_count := (positions.filter (fun p => strLower p.o = "no")).length
  let total_outcomes := if yes_count + no_count = 0 then 1 else yes_count + no_count
  let yes_pct := (yes_count : ℚ) / (total_outcomes : ℚ)
  let no_pct := (no_count : ℚ) / (total_outcomes : ℚ)
  let sigs1 : List MarketSignal :=
    if (4/5 : ℚ) < category_concentration then
      [.specialist category_concentration dominant_category]
    else if 4 ≤ cat_counts.length ∧ category_concentration < (1/2 : ℚ) then
      [.diversified cat_counts.length]
    else []
  let sigs2 : List MarketSignal :=
    if (1/10 : ℚ) < herfindahl_index then [.marketConcentrated herfindahl_index]
    else if herfindahl_index < (1/100 : ℚ) then [.highlyDiversified]
    else []
  let sigs3 : List MarketSignal :=
    if (7/10 : ℚ) < no_pct then [.noBias no_pct]
    else if (7/10 : ℚ) < yes_pct then [.yesBias yes_pct]
    else []
  let sigs4 : List MarketSignal :=
    if 0 < cids.length ∧ (3 : ℚ) < (positions.length : ℚ) / (cids.length : ℚ) then
      [.repeatMarkets ((positions.length : ℚ) / (cids.length : ℚ))]
    else []
  { total_positions := positions.length
    unique_markets := cids.length
    unique_titles := titles.length
    category_counts := category_counts
    category_pnl := cat_pnl
    category_volume := cat_vol
    dominant_category := dominant_category
    category_concentration := category_concentration
    herfindahl_index := herfindahl_index
    markets_per_category := 0
    top_markets := top_markets
    yes_pct := yes_pct
    no_pct := no_pct
    signals := sigs1 ++ sigs2 ++ sigs3 ++ sigs4 }

/-- Qualitative signals of `analyze_timing`. -/
inductive TimingSignal
  | highlyConsistent
  | sporadic
  | offHoursHeavy
  | burstTrader (n : ℕ)
  | weekendActive
  | weekdayOnly
  | highFrequency
deriving DecidableEq

/-- Result record of `src/skills/timing_analyzer.py::TimingAnalysis`. -/
structure TimingAnalysis where
  total_positions : ℕ := 0
  hour_distribution : List (ℕ × ℕ) := []
  peak_hours : List ℕ := []
  off_hours_pct : ℚ := 0
  day_distribution : List (String × ℕ) := []
  weekend_pct : ℚ := 0
  avg_days_between_trades : ℚ := 0
  burst_trading_episodes : ℕ := 0
  active_days : ℕ := 0
  total_span_days : ℕ := 0
  daily_consistency : ℚ := 0
  signals : List TimingSignal := []
deriving DecidableEq

/-- UTC hour-of-day of a unix timestamp (only applied where `ts > 0`). -/
def hourOfTs (ts : ℤ) : ℕ := ts.toNat / 3600 % 24

/-- Python `dt.weekday()` (Monday = 0); 1970-01-01 was a Thursday. -/
def weekdayOfTs (ts : ℤ) : ℕ := (ts.toNat / 86400 + 3) % 7

/-- Python `dt.strftime("%A")`. -/
def dayNameOfTs (ts : ℤ) : String :=
  (["Monday", "Tuesday", "Wednesday", "Thursday", "Friday", "Saturday",
    "Sunday"].drop (weekdayOfTs ts)).headD ""

/-- Calendar day number of a unix timestamp (Python `dt.date()`,
represented by days since the epoch). -/
def dateOfTs (ts : ℤ) : ℕ := ts.toNat / 86400

/-- `src/skills/timing_analyzer.py::analyze_timing`. -/
def analyze_timing (positions : List Position) : TimingAnalysis :=
  if positions = [] then { total_positions := positions.length } else
  let timed := positions.filter (fun p => decide (0 < p.ts))
  if timed = [] then { total_positions := positions.length } else
  let timestamps := sortByKey id (timed.map (·.ts))
  let hours : List (ℕ × ℕ) :=
    timestamps.foldl (fun d ts => dictAdd d (hourOfTs ts) 1) []
  let hour_distribution := sortByKey (fun kv => (kv.1 : ℤ)) hours
  let peak_hours := ((mostCommon hours).take 3).map Prod.fst
  let off_hours := (timestamps.filter
    (fun ts => decide (hourOfTs ts < 8 ∨ 22 ≤ hourOfTs ts))).length
  let off_hours_pct := (off_hours : ℚ) / (timestamps.length : ℚ)
  let days : List (String × ℕ) :=
    timestamps.foldl (fun d ts => dictAdd d (dayNameOfTs ts) 1) []
  let day_distribution := mostCommon days
  let weekend := (timestamps.filter (fun ts => decide (5 ≤ weekdayOfTs ts))).length
  let weekend_pct := (weekend : ℚ) / (timestamps.length : ℚ)
  let unique_days := dedupKeep (timestamps.map dateOfTs)
  let active_days := unique_days.length
  let (total_span_days, daily_consistency) :=
    match timestamps, timestamps.reverse with
    | t0 :: _ :: _, tl :: _ =>
        let span : ℚ := ((tl : ℚ) - (t0 : ℚ)) / 86400
        let tsd := max 1 (span.floor.toNat)
        (tsd, (active_days : ℚ) / (tsd : ℚ))
    | _, _ => (1, (1 : ℚ))
  let gaps := (timestamps.zip timestamps.tail).map
    (fun ab => ((ab.2 : ℚ) - (ab.1 : ℚ)) / 86400)
  let avg_days_between_trades :=
    if gaps = [] then 0 else gaps.sum / (gaps.length : ℚ)
  let hour_buckets : List ((ℕ × ℕ) × ℕ) :=
    timestamps.foldl (fun d ts => dictAdd d (dateOfTs ts, hourOfTs ts) 1) []
  let burst_trading_episodes := (hour_buckets.filter (fun kv => decide (5 < kv.2))).length
  let sigs1 : List TimingSignal :=
    if (4/5 : ℚ) < daily_consistency then [.highlyConsistent]
    else if daily_consistency < (1/10 : ℚ) then [.sporadic]
    else []
  let sigs2 : List TimingSignal :=
    if (2/5 : ℚ) < off_hours_pct then [.offHoursHeavy] else []
  let sigs3 : List TimingSignal :=
    if 10 < burst_trading_episodes then [.burstTrader burst_trading_episodes] else []
  let sigs4 : List TimingSignal :=
    if (7/20 : ℚ) < weekend_pct then [.weekendActive]
    else if weekend_pct < (1/20 : ℚ) ∧ 50 < timestamps.length then [.weekdayOnly]
    else []
  let sigs5 : List TimingSignal :=
    if avg_days_between_trades < (1/10 : ℚ) ∧ 100 < timestamps.length then
      [.highFrequency]
    else []
  { total_positions := positions.length
    hour_distribution := hour_distribution
    peak_hours := peak_hours
    off_hours_pct := off_hours_pct
    day_distribution := day_distribution
    weekend_pct := weekend_pct
    avg_days_between_trades := avg_days_between_trades
    burst_trading_episodes := burst_trading_episodes
    active_days := active_days
    total_span_days := total_span_days
    daily_consistency := daily_consistency
    signals := sigs1 ++ sigs2 ++ sigs3 ++ sigs4 ++ sigs5 }

/-- Qualitative signals of `analyze_correlations`. -/
inductive CorrelationSignal
  | hedger (pct : ℚ)
  | partialHedge (pct : ℚ)
  | batchTrader (n : ℕ)
  | relatedMarketFocus (pct : ℚ)
  | crossMarketHedge (n : ℕ)
  | someHedging (n : ℕ)
  | portfolioBuilder (n : ℕ)
  | directional (cat : String) (bias : ℚ) (side : String)
deriving DecidableEq

/-- Result record of
`src/skills/correlation_analyzer.py::CorrelationAnalysis`
(`hedge_rat` is the source's `hedge_ratio`). -/
structure CorrelationAnalysis where
  total_positions : ℕ := 0
  unique_markets : ℕ := 0
  same_market_both_sides : ℕ := 0
  hedge_rat : ℚ := 0
  temporal_clusters : ℕ := 0
  avg_cluster_size : ℚ := 0
  max_cluster_size : ℕ := 0
  simultaneous_open_markets : ℕ := 0
  avg_open_markets : ℚ := 0
  portfolio_turnover : ℚ := 0
  related_market_groups : ℕ := 0
  positions_in_related : ℕ := 0
  related_pct : ℚ := 0
  opposing_pairs : ℕ := 0
  category_direction : List (String × (ℕ × ℕ)) := []
  signals : List CorrelationSignal := []
deriving DecidableEq

/-- The temporal-clustering loop of `analyze_correlations`: clusters of
3 or more positions whose timestamps lie within one hour of the cluster
head, kept only when they span at least two distinct markets. -/
def clusterScan (sorted_positions : List Position) : List (List Position) :=
  let flush := fun (cur : List Position) (acc : List (List Position)) =>
    if 3 ≤ cur.length ∧ 2 ≤ (dedupKeep (cur.map (·.cid))).length then acc ++ [cur]
    else acc
  let st := sorted_positions.foldl
    (fun (s : List (List Position) × List Position) p =>
      let (clusters, cur) := s
      match cur with
      | [] => (clusters, [p])
      | c0 :: _ =>
          if p.ts - c0.ts ≤ 3600 then (clusters, cur ++ [p])
          else (flush cur clusters, [p]))
    ([], [])
  flush st.2 st.1

/-- The double loop of `analyze_correlations` counting opposing-side
pairs among the distinct condition ids of one related-title group. -/
def opposingInGroup (byCid : List (String × List String)) : ℕ :=
  let rec pairs : List (String × List String) → ℕ
    | [] => 0
    | (_, oi) :: rest =>
        (rest.filter (fun cj =>
          (oi.contains "yes" && cj.2.contains "no") ||
          (oi.contains "no" && cj.2.contains "yes"))).length + pairs rest
  pairs byCid

/-- The sweep-line state of the concurrent-open-markets estimate of
`analyze_correlations`. -/
structure SweepState where
  current_open : List String
  max_open : ℕ
  open_counts : List ℕ
deriving DecidableEq

/-- One sweep-line event step (`delta = +1` opens the market's id,
`delta = -1` discards it; the running count is recorded after each
event, exactly as in the source). -/
def sweepStep (st : SweepState) (e : ℤ × ℤ × String) : SweepState :=
  let cur :=
    if 0 < e.2.1 then
      if st.current_open.contains e.2.2 then st.current_open
      else st.current_open ++ [e.2.2]
    else st.current_open.filter (fun c => c ≠ e.2.2)
  let mo := if st.max_open < cur.length then cur.length else st.max_open
  { current_open := cur, max_open := mo, open_counts := st.open_counts ++ [cur.length] }

/-- `src/skills/correlation_analyzer.py::analyze_correlations`.  The two
regex helpers `_normalize_title` and `_simple_category` are supplied as
function arguments; the analyzer body is translated verbatim. -/
def analyze_correlations (normalizeTitle simpleCategory : String → String)
    (positions : List Position) : CorrelationAnalysis :=
  if positions = [] then { total_positions := positions.length } else
  let by_market : List (String × List Position) :=
    positions.foldl (fun d p => groupAdd p.cid p d) []
  let both_side_count := (by_market.filter (fun kv =>
    (kv.2.map (fun p => strLower p.o)).contains "yes" &&
    (kv.2.map (fun p => strLower p.o)).contains "no")).length
  let hedge_rat := (both_side_count : ℚ) / (max by_market.length 1 : ℚ)
  let sorted_positions := sortByKey (fun p => p.ts) positions
  let clusters := clusterScan sorted_positions
  let cluster_sizes := clusters.map (·.length)
  let avg_cluster_size : ℚ :=
    if clusters = [] then 0
    else ((cluster_sizes.map (Nat.cast)).sum : ℚ) / (cluster_sizes.length : ℚ)
  let max_cluster_size := cluster_sizes.foldl max 0
  let title_groups : List (String × List Position) :=
    positions.foldl (fun d p => groupAdd (normalizeTitle p.t) p d) []
  let related_groups := title_groups.filter
    (fun kv => decide (2 ≤ (dedupKeep (kv.2.map (·.cid))).length))
  let related_market_groups := related_groups.length
  let positions_in_related : ℕ := (related_groups.map (fun kv => kv.2.length)).sum
  let related_pct := (positions_in_related : ℚ) / (max positions.length 1 : ℚ)
  let opposing := (related_groups.map (fun kv =>
    opposingInGroup
      (kv.2.foldl (fun d p =>
        groupAdd p.cid (strLower p.o) d) []))).sum
  let hold_days : ℤ := 7 * 86400
  let events : List (ℤ × ℤ × String) :=
    (sorted_positions.filter (fun p => decide (0 < p.ts))).foldr
      (fun p acc => (p.ts, 1, p.cid) :: (p.ts + hold_days, -1, p.cid) :: acc) []
  let (simultaneous_open_markets, avg_open_markets) :=
    if events = [] then (0, (0 : ℚ))
    else
      -- Python sorts by the pair `(timestamp, delta)`; since `delta ∈ {-1, 1}`,
      -- the single integer key `4·timestamp + delta` realises the same
      -- lexicographic order.
      let sorted_events := sortByKey (fun e => e.1 * 4 + e.2.1) events
      let st := sorted_events.foldl sweepStep
        { current_open := [], max_open := 0, open_counts := [] }
      (st.max_open,
        if st.open_counts = [] then 0
        else ((st.open_counts.map (Nat.cast)).sum : ℚ) / (st.open_counts.length : ℚ))
  let cat_dir : List (String × (ℕ × ℕ)) :=
    positions.foldl
      (fun d p =>
        let o := strLower p.o
        if o = "yes" then
          dictUpd (simpleCategory p.t) (fun v => let yn := v.getD (0, 0); (yn.1 + 1, yn.2)) d
        else if o = "no" then
          dictUpd (simpleCategory p.t) (fun v => let yn := v.getD (0, 0); (yn.1, yn.2 + 1)) d
        else d)
      []
  let sigs1 : List CorrelationSignal :=
    if (3/20 : ℚ) < hedge_rat then [.hedger hedge_rat]
    else if (1/20 : ℚ) < hedge_rat then [.partialHedge hedge_rat]
    else []
  let sigs2 : List CorrelationSignal :=
    if 10 < clusters.length then [.batchTrader clusters.length] else []
  let sigs3 : List CorrelationSignal :=
    if (3/10 : ℚ) < related_pct then [.relatedMarketFocus related_pct] else []
  let sigs4 : List CorrelationSignal :=
    if 5 < opposing then [.crossMarketHedge opposing]
    else if 0 < opposing then [.someHedging opposing]
    else []
  let sigs5 : List CorrelationSignal :=
    if 50 < simultaneous_open_markets then [.portfolioBuilder simultaneous_open_markets]
    else []
  let sigs6 : List CorrelationSignal :=
    cat_dir.foldr
      (fun kv acc =>
        let y : ℕ := kv.2.1
        let n : ℕ := kv.2.2
        let bias : ℚ := ((max y n : ℕ) : ℚ) / (((y + n : ℕ) : ℕ) : ℚ)
        if 20 ≤ y + n ∧ (17/20 : ℚ) < bias then
          .directional kv.1 bias (if n < y then "YES" else "NO") :: acc
        else acc)
      []
  { total_positions := positions.length
    unique_markets := by_market.length
    same_market_both_sides := both_side_count
    hedge_rat := hedge_rat
    temporal_clusters := clusters.length
    avg_cluster_size := avg_cluster_size
    max_cluster_size := max_cluster_size
    simultaneous_open_markets := simultaneous_open_markets
    avg_open_markets := avg_open_markets
    portfolio_turnover := 0
    related_market_groups := related_market_groups
    positions_in_related := positions_in_related
    related_pct := related_pct
    opposing_pairs := opposing
    category_direction := cat_dir
    signals := sigs1 ++ sigs2 ++ sigs3 ++ sigs4 ++ sigs5 ++ sigs6 }

/-- One entry of a `WalletThesis`'s evidence list: either a string the
LLM produced, or a justification appended by `_do_override` (tagged with
the rule site and the label transition its f-string reports). -/
inductive EvidenceItem
  | text (s : String)
  | overrideReason (rule : String) (fromLabel : String) (toLabel : String)
deriving DecidableEq

/-- The `WalletThesis` fields as the dict `data` manipulated by
`_apply_hard_overrides` (`src/eval/models.py::WalletThesis`). -/
structure ThesisData where
  wallet : String
  primary_strategy : String
  secondary_strategies : List String
  confidence : ℚ
  evidence : List EvidenceItem
  reasoning : String
  signals_to_monitor : List String
  risk_assessment : String
deriving DecidableEq

/-- One override-rule site of `_apply_hard_overrides`: whether its
threshold conjunction fires on the current inputs, the replacement label
(for the two `if/elif/else` sites this is computed from the inputs), and
a tag naming the rule site. -/
structure ORule where
  fire : Bool
  target : String
  rule : String
deriving DecidableEq

/-- `src/eval/skilled_analyzer.py::_do_override` (closure over
`predicted`): demote the candidate into the secondary labels unless
already present, swap the primary label, append the justification. -/
def doOverride (predicted : String) (r : ORule) (d : ThesisData) : ThesisData :=
  { d with
    secondary_strategies :=
      if d.secondary_strategies.contains predicted then d.secondary_strategies
      else d.secondary_strategies ++ [predicted]
    primary_strategy := r.target
    evidence := d.evidence ++ [.overrideReason r.rule predicted r.target] }

/-- Evaluate one rule site: fire it through `_do_override` or leave the
data untouched. -/
def oStep (predicted : String) (d : ThesisData) (r : ORule) : ThesisData :=
  if r.fire then doOverride predicted r d else d

/-- Python `sharpe is not None and sharpe < c`. -/
def sharpeLt (sharpe : Option ℚ) (c : ℚ) : Bool :=
  match sharpe with
  | none => false
  | some s => decide (s < c)

/-- Python `sharpe is not None and sharpe > c`. -/
def sharpeGt (sharpe : Option ℚ) (c : ℚ) : Bool :=
  match sharpe with
  | none => false
  | some s => decide (c < s)

/-- The ordered rule sites of
`src/eval/skilled_analyzer.py::_apply_hard_overrides`, with their guard
conjunctions translated verbatim.  Every guard tests `predicted` — the
candidate label read once at the top of the function and never updated —
so the sites' conditions depend only on the function's inputs; the
engine is their left fold through `_do_override`.  The locals
(`win_rate` and `profit_factor` with their falsy-`or` defaulting,
`top_cats`, `sports_dominant`, `has_politics_news`, `politics_pct`,
`low_entry`, `crypto_pct`, `crypto_dominant`) are the function's own. -/
def overrideRules (predicted : String) (sizing : SizingAnalysis) (flow : FlowAnalysis)
    (markets : MarketAnalysis) (num_positions : ℕ) (sharpe : Option ℚ) : List ORule :=
  let avg_pos := sizing.avg_position_size
  let cv := sizing.coefficient_of_variation
  let win_rate := if flow.win_rate = 0 then (1/2 : ℚ) else flow.win_rate
  let profit_factor : Option ℚ :=
    match flow.profit_factor with
    | none => none
    | some q => if q = 0 then some 1 else some q
  let cat_counts := markets.category_counts
  let top_cats := (cat_counts.map Prod.fst).take 5
  let cat_values := (cat_counts.map Prod.snd).take 5
  let total_cat : ℕ := if cat_values = [] then 1 else cat_values.sum
  let sports_is_top : Bool :=
    !top_cats.isEmpty && strIn "sport" (strLower (top_cats.headD ""))
  let sports_pct : ℚ :=
    if sports_is_top && decide (0 < total_cat) then
      ((cat_values.headD 0 : ℕ) : ℚ) / (total_cat : ℚ)
    else 0
  let sports_dominant : Bool := sports_is_top && decide ((2/5 : ℚ) < sports_pct)
  let has_politics_news : Bool :=
    ["politic", "news", "election", "crypto"].any
      (fun c => strIn c (strLower (pyStrOfList top_cats)))
  let politics_count : ℕ :=
    ((cat_counts.filter (fun kv =>
      ["politic", "news", "election"].any (fun kw => strIn kw (strLower kv.1)))).map
        Prod.snd).sum
  let politics_pct : ℚ :=
    if 0 < total_cat then (politics_count : ℚ) / (total_cat : ℚ) else 0
  let low_entry : Bool :=
    decide (sizing.avg_entry_price < (9/20 : ℚ)) ||
      decide ((3/10 : ℚ) < sizing.low_odds_pct)
  let crypto_cats : ℕ :=
    ((cat_counts.filter (fun kv => strIn "crypto" (strLower kv.1))).map Prod.snd).sum
  let crypto_pct : ℚ :=
    if 0 < total_cat then (crypto_cats : ℚ) / (total_cat : ℚ) else 0
  let avg_entry := sizing.avg_entry_price
  let edge := win_rate - 1/2
  let crypto_dominant : Bool :=
    ((top_cats.take 1).any (fun c => strIn "crypto" (strLower c))) &&
      !top_cats.isEmpty &&
      (if cat_values.isEmpty then false
       else decide ((3/5 : ℚ) < ((cat_values.headD 0 : ℕ) : ℚ) / (total_cat : ℚ)))
  let exceptional_edge : Bool :=
    decide ((3/4 : ℚ) < win_rate) || pfGt profit_factor 3
  let news_signal : Bool :=
    decide ((1/4 : ℚ) < politics_pct) && pfGt profit_factor (11/10) && low_entry
  [ { fire := decide (predicted ≠ "whale") && decide ((100000 : ℚ) < avg_pos) &&
        decide (num_positions < 5000) && sports_dominant,
      target := "whale", rule := "sports_whale_override" },
    { fire := decide (predicted ≠ "whale") && decide ((300000 : ℚ) < avg_pos) &&
        decide (num_positions < 2500) && !has_politics_news &&
        (decide (win_rate < (11/20 : ℚ)) || sharpeLt sharpe 0),
      target := "whale", rule := "general_whale_override" },
    { fire := decide (predicted = "whale") && has_politics_news && !sports_dominant &&
        exceptional_edge,
      target := "info_edge", rule := "info_edge_rescue_exceptional" },
    { fire := decide (predicted = "whale") && has_politics_news && !sports_dominant &&
        !exceptional_edge && news_signal,
      target := "info_edge", rule := "info_edge_rescue_news" },
    { fire := decide (predicted = "whale") && decide (500 < num_positions) &&
        decide (cv < (6/5 : ℚ)) && decide ((11/20 : ℚ) < win_rate) &&
        pfGt profit_factor (6/5),
      target := "model_based", rule := "model_based_rescue" },
    { fire := decide (predicted = "whale") && sports_dominant &&
        decide (2000 < num_positions) && decide ((29/50 : ℚ) < win_rate) &&
        pfGt profit_factor (21/20) && decide (avg_pos < (50000 : ℚ)),
      target := "model_based", rule := "model_based_rescue_sports" },
    { fire := decide (predicted = "whale") && sports_dominant &&
        decide (500 ≤ num_positions) && decide (num_positions ≤ 2000) &&
        sharpeGt sharpe (4/5) && decide ((3/5 : ℚ) < win_rate),
      target := "model_based", rule := "model_based_rescue_sharpe" },
    { fire := decide (predicted = "whale") && sports_dominant &&
        decide (500 ≤ num_positions) && decide (num_positions ≤ 2000) &&
        decide ((3/5 : ℚ) < win_rate) && pfGt profit_factor (6/5) &&
        decide (avg_pos < (100000 : ℚ)),
      target := "model_based", rule := "model_based_rescue_sports_moderate" },
    { fire := decide (predicted = "whale") && decide (avg_pos < (10000 : ℚ)) &&
        decide (3000 < num_positions),
      target :=
        if decide (20000 < num_positions) && decide (|edge| < (3/100 : ℚ)) then
          "market_maker"
        else if decide (2000 < num_positions) && decide ((3/100 : ℚ) < edge) &&
            decide (cv < (3/2 : ℚ)) then "model_based"
        else if decide (5000 < num_positions) && decide ((3/100 : ℚ) < edge) &&
            decide (edge < (3/20 : ℚ)) then "scalper"
        else "model_based",
      rule := "anti_whale_small" },
    { fire := decide (predicted = "whale") && decide (avg_pos < (50000 : ℚ)) &&
        decide (10000 < num_positions) && decide ((3/100 : ℚ) < edge) &&
        decide (cv < (2 : ℚ)),
      target := "model_based", rule := "anti_whale_medium" },
    { fire := decide (predicted = "model_based") && has_politics_news &&
        !sports_dominant && news_signal,
      target := "info_edge", rule := "model_based_to_info_edge" },
    { fire := decide (predicted = "info_edge") && !sports_dominant &&
        !exceptional_edge && !news_signal && decide (500 < num_positions),
      target := "model_based", rule := "info_edge_to_model_based" },
    { fire := (decide (predicted = "scalper") || decide (predicted = "model_based")) &&
        !sports_dominant && decide ((3/5 : ℚ) < crypto_pct) &&
        decide ((9/20 : ℚ) ≤ avg_entry) && decide (avg_entry ≤ (11/20 : ℚ)) &&
        decide (500 < num_positions) && decide (num_positions < 5000),
      target := "contrarian", rule := "contrarian_detection" },
    { fire := decide (predicted = "info_edge") && sports_dominant &&
        decide ((11/20 : ℚ) < win_rate) && pfGt profit_factor (11/10),
      target := "model_based", rule := "info_edge_sports_to_model_based" },
    { fire := decide (predicted = "scalper") && sports_dominant &&
        decide ((29/50 : ℚ) < win_rate),
      target := "model_based", rule := "scalper_sports_edge" },
    { fire := decide (predicted = "scalper") && sports_dominant &&
        decide (15000 < num_positions) &&
        (decide (cv < (1/2 : ℚ)) ||
          (!decide (cv < (1/2 : ℚ)) && decide (20000 < num_positions) &&
            decide ((51/100 : ℚ) < win_rate) && pfGt profit_factor 1)),
      target := "model_based",
      rule := if cv < (1/2 : ℚ) then "scalper_high_volume_low_cv"
              else "scalper_extreme_volume" },
    { fire := decide (predicted = "market_maker") && sports_dominant &&
        decide ((3/100 : ℚ) < edge) && pfGt profit_factor (21/20),
      target := "model_based", rule := "market_maker_sports_edge" },
    { fire := decide (predicted = "market_maker") && decide ((53/100 : ℚ) < win_rate) &&
        pfGt profit_factor (21/20),
      target := "model_based", rule := "market_maker_directional_edge" },
    { fire := decide (predicted ≠ "market_maker") && decide (30000 < num_positions) &&
        decide (avg_pos < (150000 : ℚ)) && decide (|win_rate - 1/2| < (1/50 : ℚ)) &&
        pfLt profit_factor (11/10),
      target := if crypto_dominant then "scalper" else "market_maker",
      rule := if crypto_dominant then "crypto_scalper_override"
              else "market_maker_override" } ]

/-- `src/eval/skilled_analyzer.py::_apply_hard_overrides`: the ordered
rule sites folded through `_do_override`, starting from the incoming
thesis data. -/
def applyHardOverrides (data : ThesisData) (sizing : SizingAnalysis) (flow : FlowAnalysis)
    (markets : MarketAnalysis) (num_positions : ℕ) (sharpe : Option ℚ) : ThesisData :=
  (overrideRules data.primary_strategy sizing flow markets num_positions sharpe).foldl
    (oStep data.primary_strategy) data

/-- The first rule site of a rule list whose guard fires. -/
def firstFired : List ORule → Option ORule
  | [] => none
  | r :: rs => if r.fire then some r else firstFired rs

/-- The last rule site of a rule list whose guard fires. -/
def lastFired : List ORule → Option ORule
  | [] => none
  | r :: rs =>
      match lastFired rs with
      | some x => some x
      | none => if r.fire then some r else none

/-- The hint strings of
`src/eval/skilled_analyzer.py::rule_based_hints`, tagged with the
numbers each f-string interpolates. -/
inductive Hint
  | sportsWhale (avg : ℚ) (num : ℕ) (wr : ℚ)
  | strongInfoEdge (avg wr : ℚ) (pf : Option ℚ)
  | politicsConfirm
  | newsInfoEdge (ppct entry lowOdds : ℚ) (pf : Option ℚ)
  | possibleInfoEdge (avg wr : ℚ) (pf : Option ℚ)
  | strongWhale (avg : ℚ) (num : ℕ) (wr : ℚ)
  | whaleVariance (cv avg wr : ℚ)
  | whaleSizingHint (count : ℕ) (pct : ℚ)
  | megaPosition (mx : ℚ)
  | sportsModelBased (num : ℕ) (wr : ℚ) (pf : Option ℚ)
  | modelBasedHint (num : ℕ) (wr : ℚ) (pf : Option ℚ) (cv : ℚ)
  | sportsModelHighVol (num : ℕ) (wr : ℚ) (pf : Option ℚ)
  | possibleSportsModel (num : ℕ) (wr : ℚ) (pf : Option ℚ) (cv : ℚ)
  | cryptoScalper (num : ℕ) (avg wr edge : ℚ) (pf : Option ℚ) (cpct : ℚ)
  | strongMarketMaker (num : ℕ) (avg wr edge : ℚ) (pf : Option ℚ)
  | possibleMarketMaker (num : ℕ) (avg : ℚ)
  | scalperSignal (num : ℕ) (avg wr : ℚ)
  | contrarianSignal (noPct : ℚ)
  | notAWhale (avg : ℚ) (num : ℕ)
  | unlikelyWhale (avg : ℚ) (num : ℕ)
deriving DecidableEq

/-- Python `any('SPORTS MODEL_BASED' in h for h in hints)`: exactly the
`sportsModelBased` and `sportsModelHighVol` hint strings contain that
substring. -/
def isSportsModelHint : Hint → Bool
  | .sportsModelBased _ _ _ => true
  | .sportsModelHighVol _ _ _ => true
  | _ => false

/-- `src/eval/skilled_analyzer.py::rule_based_hints`, modelled as the
ordered list of hints it accumulates (the source then joins them under a
fixed header, or returns `""` when the list is empty — presentation
only). -/
def ruleBasedHints (sizing : SizingAnalysis) (flow : FlowAnalysis)
    (markets : MarketAnalysis) (num_positions : ℕ) : List Hint :=
  let avg_pos := sizing.avg_position_size
  let cv := sizing.coefficient_of_variation
  let whale_pct : ℚ := (sizing.whale_count : ℚ) / (max num_positions 1 : ℚ)
  let win_rate := if flow.win_rate = 0 then (1/2 : ℚ) else flow.win_rate
  let profit_factor : Option ℚ :=
    match flow.profit_factor with
    | none => none
    | some q => if q = 0 then some 1 else some q
  let has_strong_edge : Bool := decide ((13/20 : ℚ) < win_rate) || pfGt profit_factor 2
  let has_moderate_edge : Bool :=
    decide ((11/20 : ℚ) < win_rate) && pfGt profit_factor (6/5)
  let cat_counts := markets.category_counts
  let top_cats := (cat_counts.map Prod.fst).take 5
  let cat_values := (cat_counts.map Prod.snd).take 5
  let total_cat : ℕ := if cat_values = [] then 1 else cat_values.sum
  let politics_focus : Bool :=
    top_cats.any (fun c =>
      strIn "politic" (strLower c) || strIn "news" (strLower c) ||
      strIn "election" (strLower c))
  let has_non_sports : Bool :=
    ["politics", "entertainment", "crypto", "economics", "science_tech",
      "weather"].any (fun c => top_cats.contains c)
  let sports_is_top : Bool :=
    !top_cats.isEmpty && strIn "sport" (strLower (top_cats.headD ""))
  let sports_pct : ℚ :=
    if sports_is_top && decide (0 < total_cat) then
      ((cat_values.headD 0 : ℕ) : ℚ) / (total_cat : ℚ)
    else 0
  let sports_dominant : Bool := sports_is_top && decide ((2/5 : ℚ) < sports_pct)
  let low_entry : Bool :=
    decide (sizing.avg_entry_price < (9/20 : ℚ)) ||
      decide ((3/10 : ℚ) < sizing.low_odds_pct)
  let politics_count : ℕ :=
    ((cat_counts.filter (fun kv =>
      ["politic", "news", "election"].any (fun kw => strIn kw (strLower kv.1)))).map
        Prod.snd).sum
  let politics_pct : ℚ :=
    if 0 < total_cat then (politics_count : ℚ) / (total_cat : ℚ) else 0
  let crypto_top : Bool :=
    !top_cats.isEmpty && strIn "crypto" (strLower (top_cats.headD ""))
  let crypto_pct : ℚ :=
    if crypto_top && decide (0 < total_cat) then
      ((cat_values.headD 0 : ℕ) : ℚ) / (total_cat : ℚ)
    else 0
  let crypto_dominant_hint : Bool := crypto_top && decide ((3/5 : ℚ) < crypto_pct)
  let h1 : List Hint :=
    if decide ((50000 : ℚ) < avg_pos) && decide (num_positions < 5000) &&
        sports_dominant then
      [Hint.sportsWhale avg_pos num_positions win_rate]
    else []
  let h2 : List Hint :=
    if decide ((30000 : ℚ) < avg_pos) && has_strong_edge && has_non_sports &&
        !sports_dominant then
      Hint.strongInfoEdge avg_pos win_rate profit_factor ::
        (if politics_focus then [Hint.politicsConfirm] else [])
    else if has_non_sports && !sports_dominant &&
        decide ((1/4 : ℚ) < politics_pct) && low_entry &&
        pfGt profit_factor (11/10) then
      [Hint.newsInfoEdge politics_pct sizing.avg_entry_price sizing.low_odds_pct
        profit_factor]
    else if decide ((30000 : ℚ) < avg_pos) && has_moderate_edge && has_non_sports &&
        !sports_dominant && decide (100 < num_positions) then
      [Hint.possibleInfoEdge avg_pos win_rate profit_factor]
    else []
  let h3 : List Hint :=
    if decide ((50000 : ℚ) < avg_pos) && !has_strong_edge && !sports_dominant then
      (if num_positions < 3000 then [Hint.strongWhale avg_pos num_positions win_rate]
       else []) ++
      (if (3/2 : ℚ) < cv then [Hint.whaleVariance cv avg_pos win_rate] else [])
    else []
  let h4 : List Hint :=
    if decide (0 < sizing.whale_count) && decide ((1/10 : ℚ) < whale_pct) &&
        !has_strong_edge then
      [Hint.whaleSizingHint sizing.whale_count whale_pct]
    else []
  let h5 : List Hint :=
    if decide ((500000 : ℚ) < sizing.max_position_size) && !has_strong_edge then
      [Hint.megaPosition sizing.max_position_size]
    else []
  let h6 : List Hint :=
    if decide (2000 < num_positions) && has_moderate_edge &&
        (decide ((1/20 : ℚ) < win_rate - 1/2) || pfGt profit_factor (13/10)) then
      if sports_dominant then
        [Hint.sportsModelBased num_positions win_rate profit_factor]
      else if cv < (3/2 : ℚ) then
        [Hint.modelBasedHint num_positions win_rate profit_factor cv]
      else []
    else []
  let pre7 : List Hint := h1 ++ h2 ++ h3 ++ h4 ++ h5 ++ h6
  let h7 : List Hint :=
    if sports_dominant && decide (10000 < num_positions) &&
        decide ((13/25 : ℚ) < win_rate) && pfGt profit_factor 1 &&
        !(pre7.any isSportsModelHint) then
      [Hint.sportsModelHighVol num_positions win_rate profit_factor]
    else []
  let pre8 : List Hint := pre7 ++ h7
  let h8 : List Hint :=
    if sports_dominant && decide (500 < num_positions) &&
        decide ((11/20 : ℚ) < win_rate) && pfGt profit_factor (11/10) &&
        !(pre8.any isSportsModelHint) then
      [Hint.possibleSportsModel num_positions win_rate profit_factor cv]
    else []
  let h9 : List Hint :=
    if decide (20000 < num_positions) && decide (avg_pos < (150000 : ℚ)) then
      if decide (|win_rate - 1/2| < (3/100 : ℚ)) && pfLt profit_factor (23/20) then
        if crypto_dominant_hint then
          [Hint.cryptoScalper num_positions avg_pos win_rate (|win_rate - 1/2|)
            profit_factor crypto_pct]
        else
          [Hint.strongMarketMaker num_positions avg_pos win_rate (|win_rate - 1/2|)
            profit_factor]
      else []
    else if decide (40000 < num_positions) && decide (avg_pos < (150000 : ℚ)) then
      [Hint.possibleMarketMaker num_positions avg_pos]
    else []
  let h10 : List Hint :=
    if decide (5000 < num_positions) && decide (avg_pos < (100000 : ℚ)) &&
        decide ((3/100 : ℚ) < win_rate - 1/2) && decide (win_rate - 1/2 < (3/20 : ℚ)) &&
        decide (num_positions < 25000) then
      [Hint.scalperSignal num_positions avg_pos win_rate]
    else []
  -- `no_pct = getattr(markets, 'no_pct', 0) or 0`: the attribute always
  -- exists, and `0 or 0 = 0`, so the defaulting is the identity.
  let h11 : List Hint :=
    if (3/5 : ℚ) < markets.no_pct then [Hint.contrarianSignal markets.no_pct] else []
  let h12 : List Hint :=
    if decide (avg_pos < (10000 : ℚ)) && decide (3000 < num_positions) then
      [Hint.notAWhale avg_pos num_positions]
    else if decide (avg_pos < (50000 : ℚ)) && decide (10000 < num_positions) then
      [Hint.unlikelyWhale avg_pos num_positions]
    else []
  pre8 ++ h8 ++ h9 ++ h10 ++ h11 ++ h12

/-- A `SizingAnalysis` carrying the four fields the override engine and
hint generator read, all other fields at their dataclass defaults. -/
def mkSizing (avg cv entry lowOdds : ℚ) : SizingAnalysis :=
  { avg_position_size := avg, coefficient_of_variation := cv,
    avg_entry_price := entry, low_odds_pct := lowOdds }

/-- A `FlowAnalysis` carrying the two fields the override engine and
hint generator read. -/
def mkFlow (wr : ℚ) (pf : Option ℚ) : FlowAnalysis :=
  { win_rate := wr, profit_factor := pf }

/-- A `MarketAnalysis` carrying the category counts, the only field the
override engine and hint generator read. -/
def mkMarkets (counts : List (String × ℕ)) : MarketAnalysis :=
  { category_counts := counts }

/-- A fresh `WalletThesis` data dict with the given candidate label. -/
def mkData (primary : String) : ThesisData :=
  { wallet := "w", primary_strategy := primary, secondary_strategies := [],
    confidence := 1/2, evidence := [EvidenceItem.text "e0"], reasoning := "r",
    signals_to_monitor := ["s"], risk_assessment := "ra" }

/-- Spec scenario of section 8: 35 000 positions, avg 2 000 dollars,
crypto share 75 percent. -/
def cryptoScenarioSizing : SizingAnalysis := mkSizing 2000 1 (1/2) 0

/-- Spec scenario of section 8: win rate 50.5 percent, profit factor 1.02. -/
def cryptoScenarioFlow : FlowAnalysis := mkFlow (101/200) (some (51/50))

/-- Spec scenario of section 8: category counts with crypto at 75 percent. -/
def cryptoScenarioMarkets : MarketAnalysis :=
  mkMarkets [("crypto", 75), ("other", 25)]

/-- Spec scenario of section 8: 6 000 positions, avg 3 000 dollars, CV 0.8. -/
def sportsScenarioSizing : SizingAnalysis := mkSizing 3000 (4/5) (1/2) 0

/-- Spec scenario of section 8: win rate 61 percent, profit factor 1.3. -/
def sportsScenarioFlow : FlowAnalysis := mkFlow (61/100) (some (13/10))

/-- Spec scenario of section 8: category counts with sports at 90 percent. -/
def sportsScenarioMarkets : MarketAnalysis :=
  mkMarkets [("sports_betting", 90), ("other", 10)]

/-- A sports-dominant wallet on which two override rules fire in one
pass: avg 3 000 dollars, CV 1.8, WR 59 percent, PF 1.1, 6 000 positions. -/
def doubleFireSizing : SizingAnalysis := mkSizing 3000 (9/5) (1/2) 0

/-- Flow results of the double-fire wallet (WR 59 percent, PF 1.1). -/
def doubleFireFlow : FlowAnalysis := mkFlow (59/100) (some (11/10))

/-- A crypto-specialist wallet whose label moves market_maker →
model_based → contrarian across engine passes: WR 54 percent, PF 1.06,
1 000 positions, crypto share 70 percent, avg entry 0.50. -/
def cycleSizing : SizingAnalysis := mkSizing 2000 1 (1/2) 0

/-- Flow results of the cycling wallet (WR 54 percent, PF 1.06). -/
def cycleFlow : FlowAnalysis := mkFlow (27/50) (some (53/50))

/-- Market results of the cycling wallet (crypto share 70 percent). -/
def cycleMarkets : MarketAnalysis := mkMarkets [("crypto", 70), ("other", 30)]

/-- A position with every field zero / empty. -/
def zeroPos : Position :=
  { tb := 0, ap := 0, cp := 0, pnl := 0, ts := 0, t := "", cid := "", o := "" }

/-- Spec scenario of section 8: 50 positions, all identical timestamp,
all pnl 0. -/
def fiftyZeroPnl : List Position := List.replicate 50 zeroPos

/-- Two consecutive losses: cumulative PnL goes straight negative. -/
def twoLosses : List Position :=
  [{ zeroPos with pnl := -5, ts := 1 }, { zeroPos with pnl := -5, ts := 2 }]

/-- The cumulative-PnL series the Pattern analyzer computes for
`twoLosses`. -/
def twoLossesCumulative : List ℚ :=
  (((sortByKey (fun p => p.ts) twoLosses).map (·.pnl)).scanl (· + ·) 0).tail

/-- The override fold never touches the thesis fields other than the
primary label, the secondary labels and the evidence list. -/
theorem oFoldl_preserves (predicted : String) (rules : List ORule) :
    ∀ st : ThesisData,
      (rules.foldl (oStep predicted) st).wallet = st.wallet ∧
      (rules.foldl (oStep predicted) st).confidence = st.confidence ∧
      (rules.foldl (oStep predicted) st).reasoning = st.reasoning ∧
      (rules.foldl (oStep predicted) st).signals_to_monitor = st.signals_to_monitor ∧
      (rules.foldl (oStep predicted) st).risk_assessment = st.risk_assessment := by
  induction rules with
  | nil => intro st; exact ⟨rfl, rfl, rfl, rfl, rfl⟩
  | cons r rs ih =>
      intro st
      simp only [List.foldl_cons]
      have h := ih (oStep predicted st r)
      have h2 : (oStep predicted st r).wallet = st.wallet ∧
          (oStep predicted st r).confidence = st.confidence ∧
          (oStep predicted st r).reasoning = st.reasoning ∧
          (oStep predicted st r).signals_to_monitor = st.signals_to_monitor ∧
          (oStep predicted st r).risk_assessment = st.risk_assessment := by
        unfold oStep
        split <;> simp [doOverride]
      exact ⟨h.1.trans h2.1, h.2.1.trans h2.2.1, h.2.2.1.trans h2.2.2.1,
        h.2.2.2.1.trans h2.2.2.2.1, h.2.2.2.2.trans h2.2.2.2.2⟩

/-- The final primary label of the override fold is the target of the
last firing rule site, or the initial label when no site fires. -/
theorem oFoldl_primary (predicted : String) (rules : List ORule) :
    ∀ st : ThesisData,
      (rules.foldl (oStep predicted) st).primary_strategy =
        ((lastFired rules).map (fun r => r.target)).getD st.primary_strategy := by
  induction rules with
  | nil => intro st; simp [lastFired]
  | cons r rs ih =>
      intro st
      simp only [List.foldl_cons]
      rw [ih (oStep predicted st r)]
      cases hl : lastFired rs with
      | some x =>
          have hcons : lastFired (r :: rs) = some x := by
            simp [lastFired, hl]
          rw [hcons]
          rfl
      | none =>
          have hcons : lastFired (r :: rs) = if r.fire then some r else none := by
            simp [lastFired, hl]
          rw [hcons]
          by_cases hf : r.fire = true
          · simp [hf, oStep, doOverride]
          · simp [hf, oStep]

/-- One `_do_override` leaves the demoted candidate present exactly once
in the secondary labels, provided it was not already duplicated. -/
theorem doOverride_count (predicted : String) (r : ORule) (st : ThesisData)
    (h : st.secondary_strategies.count predicted ≤ 1) :
    (doOverride predicted r st).secondary_strategies.count predicted = 1 := by
  have hgoal : (doOverride predicted r st).secondary_strategies =
      if st.secondary_strategies.contains predicted = true then st.secondary_strategies
      else st.secondary_strategies ++ [predicted] := rfl
  rw [hgoal]
  by_cases hc : st.secondary_strategies.contains predicted = true
  · rw [if_pos hc]
    have hm : predicted ∈ st.secondary_strategies := by
      simpa using hc
    have h1 : 0 < st.secondary_strategies.count predicted :=
      List.count_pos_iff.mpr hm
    omega
  · rw [if_neg hc]
    have hm : predicted ∉ st.secondary_strategies := by
      simpa using hc
    rw [List.count_append, List.count_eq_zero.mpr hm]
    simp

/-- Running the override fold from a state whose secondary labels hold
the candidate at most once either leaves the state untouched, or yields
a state holding the candidate exactly once with a strictly longer
evidence list. -/
theorem oFoldl_track (predicted : String) (rules : List ORule) :
    ∀ st : ThesisData, st.secondary_strategies.count predicted ≤ 1 →
      rules.foldl (oStep predicted) st = st ∨
        ((rules.foldl (oStep predicted) st).secondary_strategies.count predicted = 1 ∧
          st.evidence.length < (rules.foldl (oStep predicted) st).evidence.length) := by
  induction rules with
  | nil => intro st _; exact Or.inl rfl
  | cons r rs ih =>
      intro st h
      simp only [List.foldl_cons]
      by_cases hf : r.fire = true
      · have hstep : oStep predicted st r = doOverride predicted r st := by
          simp [oStep, hf]
        rw [hstep]
        have hcnt := doOverride_count predicted r st h
        have hlen : st.evidence.length < (doOverride predicted r st).evidence.length := by
          simp [doOverride]
        rcases ih (doOverride predicted r st) (le_of_eq hcnt) with heq | ⟨h1, h2⟩
        · right; rw [heq]; exact ⟨hcnt, hlen⟩
        · right; exact ⟨h1, lt_trans hlen h2⟩
      · have hstep : oStep predicted st r = st := by
          simp [oStep, hf]
        rw [hstep]
        exact ih st h

/-- Unfolding of the Flow analyzer's profit factor on a nonempty
position list: gross profit over gross loss, with the loss floored at 1
when there are no losing positions, and `+∞` when the gross loss is not
positive. -/
theorem analyze_flow_pf_eq (ps : List Position) (hps : ¬(ps = [])) :
    (analyze_flow ps).profit_factor =
      (if 0 < (if ps.filter (fun p => decide (p.pnl ≤ 0)) = [] then (1 : ℚ)
               else |((ps.filter (fun p => decide (p.pnl ≤ 0))).map (·.pnl)).sum|) then
         some ((if ps.filter (fun p => decide (0 < p.pnl)) = [] then 0
                else ((ps.filter (fun p => decide (0 < p.pnl))).map (·.pnl)).sum) /
               (if ps.filter (fun p => decide (p.pnl ≤ 0)) = [] then 1
                else |((ps.filter (fun p => decide (p.pnl ≤ 0))).map (·.pnl)).sum|))
       else none) := by
  unfold analyze_flow
  rw [if_neg hps]

/-- Unfolding of the Pattern analyzer's drawdown fields on a list of at
least two positions: the running peak/trough scan over cumulative PnL,
and the recovery count from its trough (0 when no drawdown occurred). -/
theorem analyze_patterns_dd_eq (ps : List Position) (h2 : ¬(ps.length < 2)) :
    (analyze_patterns ps).max_drawdown =
        (ddScan (((sortByKey (fun p => p.ts) ps).map (·.pnl)).scanl (· + ·) 0).tail).max_dd ∧
      (analyze_patterns ps).drawdown_duration_positions =
        (if 0 < (ddScan (((sortByKey (fun p => p.ts) ps).map (·.pnl)).scanl (· + ·) 0).tail).max_dd then
           recoveryCount
             (ddScan (((sortByKey (fun p => p.ts) ps).map (·.pnl)).scanl (· + ·) 0).tail).max_dd_peak
             (((((sortByKey (fun p => p.ts) ps).map (·.pnl)).scanl (· + ·) 0).tail).drop
               (ddScan (((sortByKey (fun p => p.ts) ps).map (·.pnl)).scanl (· + ·) 0).tail).max_dd_end)
         else 0) := by
  unfold analyze_patterns
  rw [if_neg h2]
  exact ⟨rfl, rfl⟩

/-- One drawdown-scan step never decreases `max_dd` below 0. -/
theorem ddStep_nonneg (st : DDState) (iv : ℕ × ℚ) (h : 0 ≤ st.max_dd) :
    0 ≤ (ddStep st iv).max_dd := by
  have key : ∀ st1 : DDState, 0 ≤ st1.max_dd →
      0 ≤ (if st1.max_dd < st1.peak - iv.2 then
             { st1 with max_dd := st1.peak - iv.2, max_dd_peak := st1.peak,
                        max_dd_start := st1.dd_start, max_dd_end := iv.1 }
           else st1).max_dd := by
    intro st1 h1
    by_cases hlt : st1.max_dd < st1.peak - iv.2
    · rw [if_pos hlt]
      exact le_of_lt (lt_of_le_of_lt h1 hlt)
    · rw [if_neg hlt]
      exact h1
  by_cases hp : st.peak < iv.2
  · exact key { st with peak := iv.2, dd_start := iv.1 } (by
      show (0 : ℚ) ≤ st.max_dd
      exact h) |>.trans_eq (by
      show _ = (ddStep st iv).max_dd
      unfold ddStep
      rw [if_pos hp])
  · exact key st h |>.trans_eq (by
      show _ = (ddStep st iv).max_dd
      unfold ddStep
      rw [if_neg hp])

/-- The drawdown scan keeps `max_dd` non-negative from any state with
non-negative `max_dd`. -/
theorem ddScan_foldl_nonneg (l : List (ℕ × ℚ)) :
    ∀ st : DDState, 0 ≤ st.max_dd → 0 ≤ (l.foldl ddStep st).max_dd := by
  induction l with
  | nil => intro st h; exact h
  | cons x xs ih => intro st h; exact ih _ (ddStep_nonneg st x h)

/-- The maximum drawdown computed by the scan is never negative. -/
theorem ddScan_nonneg (cumulative : List ℚ) : 0 ≤ (ddScan cumulative).max_dd := by
  unfold ddScan
  exact ddScan_foldl_nonneg _ _ le_rfl

/-- C1 (counterexample): with the spec scenario's metrics — 35 000
positions, avg position 2 000 dollars, win rate 50.5 percent, profit
factor 1.02, crypto category share 75 percent — and candidate label
market_maker, the override engine returns market_maker, not scalper:
the crypto-dominant scalper exception lives inside the rule guarded by
`predicted != "market_maker"`, which cannot fire when the candidate is
already market_maker. -/
theorem crypto_scenario_market_maker_candidate_stays :
    (applyHardOverrides (mkData "market_maker") cryptoScenarioSizing cryptoScenarioFlow
        cryptoScenarioMarkets 35000 none).primary_strategy = "market_maker" ∧
      ("market_maker" : String) ≠ "scalper" := by
  refine ⟨?_, by decide⟩
  with_unfolding_all rfl

/-- C1 (amended): on the spec scenario's metrics the engine leaves a
market_maker candidate unchanged (no rule fires), while any other
candidate — e.g. unknown — is overridden to scalper by the
crypto-dominant near-50-percent-win-rate exception of the
market-maker rule. -/
theorem crypto_scenario_overrides :
    (applyHardOverrides (mkData "market_maker") cryptoScenarioSizing cryptoScenarioFlow
        cryptoScenarioMarkets 35000 none).primary_strategy = "market_maker" ∧
      (applyHardOverrides (mkData "unknown") cryptoScenarioSizing cryptoScenarioFlow
        cryptoScenarioMarkets 35000 none).primary_strategy = "scalper" := by
  exact ⟨by with_unfolding_all rfl, by with_unfolding_all rfl⟩

/-- C2 (counterexample): the override rule sites all test the original
candidate label, so a later rule can change the final label after an
earlier one has already fired.  On a sports-dominant whale wallet with
avg 3 000 dollars, CV 1.8, win rate 59 percent, profit factor 1.1 and
6 000 positions, the first firing rule (the sports model_based rescue)
sets model_based, but the later anti-whale rule fires too and the final
label is scalper. -/
theorem override_order_not_first_fired :
    (firstFired (overrideRules "whale" doubleFireSizing doubleFireFlow
        sportsScenarioMarkets 6000 none)).map (fun r => r.target) = some "model_based" ∧
      (applyHardOverrides (mkData "whale") doubleFireSizing doubleFireFlow
        sportsScenarioMarkets 6000 none).primary_strategy = "scalper" ∧
      ("scalper" : String) ≠ "model_based" := by
  refine ⟨?_, ?_, by decide⟩
  · with_unfolding_all rfl
  · with_unfolding_all rfl

/-- C2 (amended): the rules are evaluated in the fixed documented
order, but each guard tests the original candidate rather than the
current label, so several rules may fire in one pass and it is the LAST
firing rule (not the first) whose target becomes the final label; the
candidate stands when no rule fires. -/
theorem override_last_fired_determines (data : ThesisData) (sizing : SizingAnalysis)
    (flow : FlowAnalysis) (markets : MarketAnalysis) (n : ℕ) (sharpe : Option ℚ) :
    (applyHardOverrides data sizing flow markets n sharpe).primary_strategy =
      ((lastFired (overrideRules data.primary_strategy sizing flow markets n sharpe)).map
        (fun r => r.target)).getD data.primary_strategy := by
  unfold applyHardOverrides
  exact oFoldl_primary _ _ data

/-- C3 (counterexample): the override engine is not idempotent on the
final label.  On a crypto-specialist wallet (win rate 54 percent, PF
1.06, 1 000 positions, crypto share 70 percent, avg entry 0.50) the
candidate market_maker is overridden to model_based; feeding
model_based back in with the same analyzer results triggers the
contrarian rule and yields contrarian. -/
theorem override_engine_not_idempotent :
    (applyHardOverrides (mkData "market_maker") cycleSizing cycleFlow cycleMarkets
        1000 none).primary_strategy = "model_based" ∧
      (applyHardOverrides (mkData "model_based") cycleSizing cycleFlow cycleMarkets
        1000 none).primary_strategy = "contrarian" ∧
      ("contrarian" : String) ≠ "model_based" := by
  refine ⟨?_, ?_, by decide⟩
  · with_unfolding_all rfl
  · with_unfolding_all rfl

/-- C3 (amended): the engine is idempotent exactly on its fixed points:
whenever a pass returns the candidate label unchanged, feeding that
label back in with the same analyzer results returns it again.  (In
general a second pass can re-trigger a different rule, see the
counterexample.) -/
theorem override_engine_idempotent_on_fixed_points (data : ThesisData)
    (sizing : SizingAnalysis) (flow : FlowAnalysis) (markets : MarketAnalysis)
    (n : ℕ) (sharpe : Option ℚ)
    (h : (applyHardOverrides data sizing flow markets n sharpe).primary_strategy =
      data.primary_strategy) :
    (applyHardOverrides
        { data with primary_strategy :=
            (applyHardOverrides data sizing flow markets n sharpe).primary_strategy }
        sizing flow markets n sharpe).primary_strategy =
      (applyHardOverrides data sizing flow markets n sharpe).primary_strategy := by
  rw [h]
  have heta : ({ data with primary_strategy := data.primary_strategy } : ThesisData)
      = data := rfl
  rw [heta, h]

/-- Witness for the amended C3 theorem: a wallet on which no override
rule fires (candidate unknown, all metrics zero), where the second pass
indeed returns the same label. -/
theorem override_engine_idempotent_on_fixed_points_witness :
    (applyHardOverrides (mkData "unknown") (mkSizing 0 0 0 0) (mkFlow 0 (some 0))
        (mkMarkets []) 0 none).primary_strategy = "unknown" ∧
      (applyHardOverrides
          { mkData "unknown" with primary_strategy :=
              (applyHardOverrides (mkData "unknown") (mkSizing 0 0 0 0)
                (mkFlow 0 (some 0)) (mkMarkets []) 0 none).primary_strategy }
          (mkSizing 0 0 0 0) (mkFlow 0 (some 0)) (mkMarkets []) 0 none).primary_strategy =
        (applyHardOverrides (mkData "unknown") (mkSizing 0 0 0 0) (mkFlow 0 (some 0))
          (mkMarkets []) 0 none).primary_strategy := by
  refine ⟨by with_unfolding_all rfl, ?_⟩
  exact override_engine_idempotent_on_fixed_points (mkData "unknown") (mkSizing 0 0 0 0)
    (mkFlow 0 (some 0)) (mkMarkets []) 0 none (by with_unfolding_all rfl)

/-- C6: with 6 000 positions, avg 3 000 dollars, sports share 90
percent, win rate 61 percent, profit factor 1.3 and CV 0.8, the
candidate whale is overridden to model_based (the sports model_based
rescue fires) and whale is demoted into the secondary labels. -/
theorem sports_scenario_model_based_rescue :
    (applyHardOverrides (mkData "whale") sportsScenarioSizing sportsScenarioFlow
        sportsScenarioMarkets 6000 none).primary_strategy = "model_based" ∧
      (applyHardOverrides (mkData "whale") sportsScenarioSizing sportsScenarioFlow
        sportsScenarioMarkets 6000 none).secondary_strategies = ["whale"] := by
  exact ⟨by with_unfolding_all rfl, by with_unfolding_all rfl⟩

/-- C4 (counterexample): the Flow analyzer's profit factor is infinite
(modelled by `none`) on a list holding a winning position and a zero-pnl
position: the zero-pnl position counts as a loss, the gross loss is
`abs(0) = 0`, and the source returns `float('inf')`. -/
theorem profit_factor_infinite_on_zero_sum_losses :
    (analyze_flow [{ zeroPos with pnl := 10 }, zeroPos]).profit_factor = none := by
  with_unfolding_all rfl

/-- C4 (amended): when there are no losing positions (pnl ≤ 0) the
profit factor equals the gross profit (the gross loss is floored at 1);
it is infinite exactly when losing positions exist whose pnl sums to
zero, and finite in every other case. -/
theorem profit_factor_characterization (ps : List Position) :
    (ps.filter (fun p => decide (p.pnl ≤ 0)) = [] →
        (analyze_flow ps).profit_factor =
          some (((ps.filter (fun p => decide (0 < p.pnl))).map (·.pnl)).sum)) ∧
      ((analyze_flow ps).profit_factor = none ↔
        ps.filter (fun p => decide (p.pnl ≤ 0)) ≠ [] ∧
          ((ps.filter (fun p => decide (p.pnl ≤ 0))).map (·.pnl)).sum = 0) := by
  by_cases hps : ps = []
  · subst hps
    refine ⟨fun _ => by with_unfolding_all rfl, ?_⟩
    constructor
    · intro h
      have hpf : (analyze_flow ([] : List Position)).profit_factor = some 0 := by
        with_unfolding_all rfl
      rw [hpf] at h
      exact Option.noConfusion h
    · rintro ⟨h, -⟩
      exact absurd rfl h
  · rw [analyze_flow_pf_eq ps hps]
    by_cases hl : ps.filter (fun p => decide (p.pnl ≤ 0)) = []
    · constructor
      · intro _
        rw [if_pos hl]
        rw [if_pos (by norm_num : (0 : ℚ) < 1)]
        by_cases hw : ps.filter (fun p => decide (0 < p.pnl)) = []
        · rw [if_pos hw]
          simp [hw]
        · rw [if_neg hw]
          simp
      · rw [if_pos hl]
        rw [if_pos (by norm_num : (0 : ℚ) < 1)]
        simp [hl]
    · constructor
      · intro h
        exact absurd h hl
      · by_cases hz : ((ps.filter (fun p => decide (p.pnl ≤ 0))).map (·.pnl)).sum = 0
        · rw [if_neg hl, hz]
          simp [hl, hz]
        · have hpos : (0 : ℚ) < |((ps.filter (fun p => decide (p.pnl ≤ 0))).map (·.pnl)).sum| :=
            abs_pos.mpr hz
          rw [if_neg hl, if_pos hpos]
          simp [hz]

/-- C4 witness: a single winning position has an empty losing filter and
its profit factor is exactly its gross profit, 5. -/
theorem profit_factor_characterization_witness :
    (analyze_flow [{ zeroPos with pnl := 5 }]).profit_factor = some 5 := by
  have h := (profit_factor_characterization [{ zeroPos with pnl := 5 }]).1
    (by with_unfolding_all rfl)
  rw [h]
  with_unfolding_all rfl

set_option maxRecDepth 40000 in
/-- Evaluation: the max drawdown of the 50 zero-pnl positions. -/
theorem fiftyZeroPnl_max_drawdown : (analyze_patterns fiftyZeroPnl).max_drawdown = 0 := by
  with_unfolding_all rfl

set_option maxRecDepth 40000 in
/-- Evaluation: the drawdown recovery length of the 50 zero-pnl positions. -/
theorem fiftyZeroPnl_dd_duration :
    (analyze_patterns fiftyZeroPnl).drawdown_duration_positions = 0 := by
  with_unfolding_all rfl

set_option maxRecDepth 40000 in
/-- Evaluation: the max win streak of the 50 zero-pnl positions. -/
theorem fiftyZeroPnl_max_win_streak : (analyze_patterns fiftyZeroPnl).max_win_streak = 0 := by
  with_unfolding_all rfl

set_option maxRecDepth 40000 in
/-- Evaluation: the average win streak of the 50 zero-pnl positions. -/
theorem fiftyZeroPnl_avg_win_streak : (analyze_patterns fiftyZeroPnl).avg_win_streak = 0 := by
  with_unfolding_all rfl

set_option maxRecDepth 40000 in
/-- Evaluation: the max loss streak of the 50 zero-pnl positions. -/
theorem fiftyZeroPnl_max_loss_streak :
    (analyze_patterns fiftyZeroPnl).max_loss_streak = 50 := by
  with_unfolding_all rfl

set_option maxRecDepth 40000 in
/-- Evaluation: the average loss streak of the 50 zero-pnl positions. -/
theorem fiftyZeroPnl_avg_loss_streak :
    (analyze_patterns fiftyZeroPnl).avg_loss_streak = 50 := by
  with_unfolding_all rfl

set_option maxRecDepth 40000 in
/-- Evaluation: the PnL-curve R-squared of the 50 zero-pnl positions. -/
theorem fiftyZeroPnl_r2 : (analyze_patterns fiftyZeroPnl).pnl_curve_r2 = 0 := by
  with_unfolding_all rfl

set_option maxRecDepth 40000 in
/-- Evaluation: the signals of the 50 zero-pnl positions. -/
theorem fiftyZeroPnl_signals : (analyze_patterns fiftyZeroPnl).signals =
    [PatternSignal.longLossStreaks 50, PatternSignal.volatileReturns 0] := by
  with_unfolding_all rfl

/-- C5 (counterexample): on 50 positions with identical timestamps and
pnl 0 throughout, the Pattern analyzer does NOT return all-zero streak
counts with no signals: every zero-pnl position counts as a loss
(`pnl > 0` is the win test), so the maximum loss streak is 50 and the
signals list is non-empty (LONG_LOSS_STREAKS fires). -/
theorem fifty_zero_pnl_loss_streaks_and_signals :
    (analyze_patterns fiftyZeroPnl).max_loss_streak = 50 ∧
      (analyze_patterns fiftyZeroPnl).signals ≠ [] := by
  refine ⟨fiftyZeroPnl_max_loss_streak, ?_⟩
  rw [fiftyZeroPnl_signals]
  simp

/-- C5 (amended): on 50 positions with identical timestamps and pnl 0
throughout, the Pattern analyzer returns max drawdown 0 with recovery
length 0, win-streak statistics 0, loss-streak statistics 50 (zero pnl
counts as a loss), R-squared 0 (via the zero-variance guard, not the
n < 10 guard), raises nothing, and emits exactly the LONG_LOSS_STREAKS
and VOLATILE_RETURNS signals. -/
theorem fifty_zero_pnl_pattern_results :
    (analyze_patterns fiftyZeroPnl).max_drawdown = 0 ∧
      (analyze_patterns fiftyZeroPnl).drawdown_duration_positions = 0 ∧
      (analyze_patterns fiftyZeroPnl).max_win_streak = 0 ∧
      (analyze_patterns fiftyZeroPnl).avg_win_streak = 0 ∧
      (analyze_patterns fiftyZeroPnl).max_loss_streak = 50 ∧
      (analyze_patterns fiftyZeroPnl).avg_loss_streak = 50 ∧
      (analyze_patterns fiftyZeroPnl).pnl_curve_r2 = 0 ∧
      (analyze_patterns fiftyZeroPnl).signals =
        [PatternSignal.longLossStreaks 50, PatternSignal.volatileReturns 0] := by
  refine ⟨fiftyZeroPnl_max_drawdown, fiftyZeroPnl_dd_duration, fiftyZeroPnl_max_win_streak,
    fiftyZeroPnl_avg_win_streak, ?_, fiftyZeroPnl_avg_loss_streak, fiftyZeroPnl_r2,
    fiftyZeroPnl_signals⟩
  with_unfolding_all rfl

/-- C7 (counterexample): the maximum drawdown can exceed the peak
cumulative PnL at the drawdown's start.  On two positions of pnl −5
each, the cumulative series is [−5, −10], the scan's peak at the
drawdown start is −5, and the max drawdown is 5 > −5. -/
theorem drawdown_exceeds_negative_peak :
    (analyze_patterns twoLosses).max_drawdown = 5 ∧
      (ddScan twoLossesCumulative).max_dd = 5 ∧
      (ddScan twoLossesCumulative).max_dd_peak = -5 ∧
      ¬((ddScan twoLossesCumulative).max_dd ≤ (ddScan twoLossesCumulative).max_dd_peak) := by
  refine ⟨by with_unfolding_all rfl, by with_unfolding_all rfl,
    by with_unfolding_all rfl, ?_⟩
  have h1 : (ddScan twoLossesCumulative).max_dd = 5 := by with_unfolding_all rfl
  have h2 : (ddScan twoLossesCumulative).max_dd_peak = -5 := by with_unfolding_all rfl
  rw [h1, h2]
  norm_num

/-- C7 (amended): the Pattern analyzer's maximum drawdown is always
non-negative (it can exceed the peak at the drawdown's start when the
cumulative PnL turns negative), and the recovery length is 0 whenever
the maximum drawdown is 0. -/
theorem drawdown_nonneg_and_recovery_zero (ps : List Position) :
    0 ≤ (analyze_patterns ps).max_drawdown ∧
      ((analyze_patterns ps).max_drawdown = 0 →
        (analyze_patterns ps).drawdown_duration_positions = 0) := by
  by_cases h2 : ps.length < 2
  · have hdd : (analyze_patterns ps).max_drawdown = 0 := by
      unfold analyze_patterns
      rw [if_pos h2]
    have hdur : (analyze_patterns ps).drawdown_duration_positions = 0 := by
      unfold analyze_patterns
      rw [if_pos h2]
    exact ⟨le_of_eq hdd.symm, fun _ => hdur⟩
  · obtain ⟨hdd, hdur⟩ := analyze_patterns_dd_eq ps h2
    refine ⟨?_, ?_⟩
    · rw [hdd]
      exact ddScan_nonneg _
    · intro h0
      rw [hdd] at h0
      rw [hdur]
      rw [if_neg (by rw [h0]; exact lt_irrefl 0)]

/-- C7 witness: the empty position list, where the maximum drawdown is 0
and the recovery length is 0. -/
theorem drawdown_nonneg_and_recovery_zero_witness :
    0 ≤ (analyze_patterns ([] : List Position)).max_drawdown ∧
      (analyze_patterns ([] : List Position)).drawdown_duration_positions = 0 := by
  exact ⟨(drawdown_nonneg_and_recovery_zero []).1,
    (drawdown_nonneg_and_recovery_zero []).2 (by with_unfolding_all rfl)⟩

/-- C8: on the empty position list every one of the six analyzers
returns its all-zero default record — zero counts, zero rates, empty
signal list — and no exception path exists. -/
theorem analyzers_empty_input_zero (sqrtQ : ℚ → ℚ)
    (categorize normTitle simpleCategory : String → String) :
    (analyze_timing []).total_positions = 0 ∧
      (analyze_timing []).hour_distribution = [] ∧
      (analyze_timing []).peak_hours = [] ∧
      (analyze_timing []).off_hours_pct = 0 ∧
      (analyze_timing []).weekend_pct = 0 ∧
      (analyze_timing []).avg_days_between_trades = 0 ∧
      (analyze_timing []).burst_trading_episodes = 0 ∧
      (analyze_timing []).active_days = 0 ∧
      (analyze_timing []).signals = [] ∧
      (analyze_sizing sqrtQ []).total_positions = 0 ∧
      (analyze_sizing sqrtQ []).total_volume = 0 ∧
      (analyze_sizing sqrtQ []).avg_position_size = 0 ∧
      (analyze_sizing sqrtQ []).micro_count = 0 ∧
      (analyze_sizing sqrtQ []).small_count = 0 ∧
      (analyze_sizing sqrtQ []).medium_count = 0 ∧
      (analyze_sizing sqrtQ []).large_count = 0 ∧
      (analyze_sizing sqrtQ []).whale_count = 0 ∧
      (analyze_sizing sqrtQ []).coefficient_of_variation = 0 ∧
      (analyze_sizing sqrtQ []).signals = [] ∧
      (analyze_markets categorize []).total_positions = 0 ∧
      (analyze_markets categorize []).unique_markets = 0 ∧
      (analyze_markets categorize []).unique_titles = 0 ∧
      (analyze_markets categorize []).category_counts = [] ∧
      (analyze_markets categorize []).category_concentration = 0 ∧
      (analyze_markets categorize []).herfindahl_index = 0 ∧
      (analyze_markets categorize []).yes_pct = 0 ∧
      (analyze_markets categorize []).no_pct = 0 ∧
      (analyze_markets categorize []).signals = [] ∧
      (analyze_flow []).total_positions = 0 ∧
      (analyze_flow []).win_count = 0 ∧
      (analyze_flow []).loss_count = 0 ∧
      (analyze_flow []).win_rate = 0 ∧
      (analyze_flow []).profit_factor = some 0 ∧
      (analyze_flow []).expectancy = 0 ∧
      (analyze_flow []).multi_entry_markets = 0 ∧
      (analyze_flow []).signals = [] ∧
      (analyze_patterns []).total_positions = 0 ∧
      (analyze_patterns []).max_win_streak = 0 ∧
      (analyze_patterns []).max_loss_streak = 0 ∧
      (analyze_patterns []).max_drawdown = 0 ∧
      (analyze_patterns []).recoveries_from_loss = 0 ∧
      (analyze_patterns []).signals = [] ∧
      (analyze_correlations normTitle simpleCategory []).total_positions = 0 ∧
      (analyze_correlations normTitle simpleCategory []).unique_markets = 0 ∧
      (analyze_correlations normTitle simpleCategory []).same_market_both_sides = 0 ∧
      (analyze_correlations normTitle simpleCategory []).hedge_rat = 0 ∧
      (analyze_correlations normTitle simpleCategory []).temporal_clusters = 0 ∧
      (analyze_correlations normTitle simpleCategory []).opposing_pairs = 0 ∧
      (analyze_correlations normTitle simpleCategory []).simultaneous_open_markets = 0 ∧
      (analyze_correlations normTitle simpleCategory []).signals = [] := by
  refine ⟨rfl, rfl, rfl, rfl, rfl, rfl, rfl, rfl, rfl, rfl, rfl, rfl, rfl, rfl, rfl, rfl,
    rfl, rfl, rfl, rfl, rfl, rfl, rfl, rfl, rfl, rfl, rfl, rfl, rfl, rfl, rfl, rfl, rfl,
    rfl, rfl, rfl, rfl, rfl, rfl, rfl, rfl, rfl, rfl, rfl, rfl, rfl, rfl, rfl, rfl, rfl⟩

/-- C9: whenever the override engine changes the label, the previous
candidate is present exactly once in the secondary labels (it is never
appended a second time), at least one justification has been appended to
the evidence list, and the remaining thesis fields — wallet, confidence,
reasoning, monitoring signals, risk note — are untouched.  (Stated for
thesis data whose incoming secondary labels do not already duplicate the
candidate, which validated LLM output satisfies.) -/
theorem override_demotes_candidate_once (data : ThesisData) (sizing : SizingAnalysis)
    (flow : FlowAnalysis) (markets : MarketAnalysis) (n : ℕ) (sharpe : Option ℚ)
    (hcount : data.secondary_strategies.count data.primary_strategy ≤ 1)
    (hneq : (applyHardOverrides data sizing flow markets n sharpe).primary_strategy ≠
      data.primary_strategy) :
    (applyHardOverrides data sizing flow markets n sharpe).secondary_strategies.count
        data.primary_strategy = 1 ∧
      data.evidence.length <
        (applyHardOverrides data sizing flow markets n sharpe).evidence.length ∧
      (applyHardOverrides data sizing flow markets n sharpe).wallet = data.wallet ∧
      (applyHardOverrides data sizing flow markets n sharpe).confidence = data.confidence ∧
      (applyHardOverrides data sizing flow markets n sharpe).reasoning = data.reasoning ∧
      (applyHardOverrides data sizing flow markets n sharpe).signals_to_monitor =
        data.signals_to_monitor ∧
      (applyHardOverrides data sizing flow markets n sharpe).risk_assessment =
        data.risk_assessment := by
  have hpres := oFoldl_preserves data.primary_strategy
    (overrideRules data.primary_strategy sizing flow markets n sharpe) data
  have htrack := oFoldl_track data.primary_strategy
    (overrideRules data.primary_strategy sizing flow markets n sharpe) data hcount
  unfold applyHardOverrides at hneq ⊢
  rcases htrack with heq | ⟨h1, h2⟩
  · rw [heq] at hneq
    exact absurd rfl hneq
  · exact ⟨h1, h2, hpres.1, hpres.2.1, hpres.2.2.1, hpres.2.2.2.1, hpres.2.2.2.2⟩

/-- C9 witness: the double-fire whale wallet, on which the engine moves
the label to scalper, demotes whale into the secondary labels exactly
once, appends evidence, and leaves the other fields unchanged. -/
theorem override_demotes_candidate_once_witness :
    (applyHardOverrides (mkData "whale") doubleFireSizing doubleFireFlow
        sportsScenarioMarkets 6000 none).secondary_strategies.count
        (mkData "whale").primary_strategy = 1 ∧
      (mkData "whale").evidence.length <
        (applyHardOverrides (mkData "whale") doubleFireSizing doubleFireFlow
          sportsScenarioMarkets 6000 none).evidence.length ∧
      (applyHardOverrides (mkData "whale") doubleFireSizing doubleFireFlow
        sportsScenarioMarkets 6000 none).wallet = (mkData "whale").wallet ∧
      (applyHardOverrides (mkData "whale") doubleFireSizing doubleFireFlow
        sportsScenarioMarkets 6000 none).confidence = (mkData "whale").confidence ∧
      (applyHardOverrides (mkData "whale") doubleFireSizing doubleFireFlow
        sportsScenarioMarkets 6000 none).reasoning = (mkData "whale").reasoning ∧
      (applyHardOverrides (mkData "whale") doubleFireSizing doubleFireFlow
        sportsScenarioMarkets 6000 none).signals_to_monitor =
        (mkData "whale").signals_to_monitor ∧
      (applyHardOverrides (mkData "whale") doubleFireSizing doubleFireFlow
        sportsScenarioMarkets 6000 none).risk_assessment =
        (mkData "whale").risk_assessment := by
  refine override_demotes_candidate_once (mkData "whale") doubleFireSizing doubleFireFlow
    sportsScenarioMarkets 6000 none ?_ ?_
  · show List.count "whale" [] ≤ 1
    simp
  · have h : (applyHardOverrides (mkData "whale") doubleFireSizing doubleFireFlow
        sportsScenarioMarkets 6000 none).primary_strategy = "scalper" := by
      with_unfolding_all rfl
    rw [h]
    show ¬("scalper" : String) = "whale"
    decide

/-- C10: the falsy-value defaulting at the top of the override engine
and of the hint generator coerces a true-zero win rate to 0.5 and a
true-zero profit factor to 1.0, so their outputs with `win_rate = 0`
(resp. `profit_factor = 0`) equal their outputs with `win_rate = 0.5`
(resp. `profit_factor = 1.0`), for every thesis and analyzer input. -/
theorem falsy_defaulting_neutralizes_zero_signals (data : ThesisData)
    (sizing : SizingAnalysis) (flow : FlowAnalysis) (markets : MarketAnalysis)
    (n : ℕ) (sharpe : Option ℚ) :
    applyHardOverrides data sizing { flow with win_rate := 0 } markets n sharpe =
        applyHardOverrides data sizing { flow with win_rate := 1/2 } markets n sharpe ∧
      applyHardOverrides data sizing { flow with profit_factor := some 0 } markets n
          sharpe =
        applyHardOverrides data sizing { flow with profit_factor := some 1 } markets n
          sharpe ∧
      ruleBasedHints sizing { flow with win_rate := 0 } markets n =
        ruleBasedHints sizing { flow with win_rate := 1/2 } markets n ∧
      ruleBasedHints sizing { flow with profit_factor := some 0 } markets n =
        ruleBasedHints sizing { flow with profit_factor := some 1 } markets n := by
  refine ⟨?_, ?_, ?_, ?_⟩ <;> with_unfolding_all rfl

end PMA
